import Mathlib

/-!
Verification of the GPU object-picking component (`Picker`) of the studio
repository, from `packages/studio-base/src/panels/ThreeDeeRender/Picker.ts`.

The embedding models the JavaScript number semantics that the source relies
on explicitly: 32-bit signed wraparound for the `<<`, `>>`, `&`, `^`, `|`
operators (`jsToInt32` and friends), unsigned 32-bit storage for the
`Uint32Array` used by `hashInt`, and exact rational arithmetic for the
remaining (small, exactly representable) number computations.  The WebGL
renderer, camera and scene graph are modelled at their boundary: render
targets are pixel arrays, `renderBufferDirect` writes an item's coverage
with the quantised uniform colour, and `gl.render(emptyScene, camera)`
triggers the `onAfterRender` hook exactly as in the source.
-/

namespace Picker

/-! ### JavaScript 32-bit integer semantics -/

/-- ECMAScript ToInt32: reduce an integer to the signed 32-bit range. -/
def jsToInt32 (x : ℤ) : ℤ := (x + 2 ^ 31) % 2 ^ 32 - 2 ^ 31

/-- ECMAScript ToUint32: reduce an integer to the unsigned 32-bit range. -/
def jsToUint32 (x : ℤ) : ℤ := x % 2 ^ 32

/-- JavaScript `x << n`: 32-bit signed left shift. -/
def jsShl (x : ℤ) (n : ℕ) : ℤ := jsToInt32 (jsToInt32 x * 2 ^ n)

/-- JavaScript `x >> n`: 32-bit arithmetic (sign-propagating) right shift.
For a positive divisor, Lean's `Int` division is floor division, which is
exactly the arithmetic shift. -/
def jsShr (x : ℤ) (n : ℕ) : ℤ := jsToInt32 x / 2 ^ n

/-- JavaScript `x >>> n`: 32-bit unsigned (zero-fill) right shift. -/
def jsShrU (x : ℤ) (n : ℕ) : ℤ := jsToUint32 x / 2 ^ n

/-- JavaScript `x & y`: bitwise and over the 32-bit patterns. -/
def jsAnd (x y : ℤ) : ℤ :=
  jsToInt32 ((Nat.land (jsToUint32 x).toNat (jsToUint32 y).toNat : ℕ) : ℤ)

/-- JavaScript `x ^ y`: bitwise xor over the 32-bit patterns. -/
def jsXor (x y : ℤ) : ℤ :=
  jsToInt32 ((Nat.xor (jsToUint32 x).toNat (jsToUint32 y).toNat : ℕ) : ℤ)

/-- JavaScript `x | y`: bitwise or over the 32-bit patterns. -/
def jsOr (x y : ℤ) : ℤ :=
  jsToInt32 ((Nat.lor (jsToUint32 x).toNat (jsToUint32 y).toNat : ℕ) : ℤ)

/-! ### The debug hash (`hashInt`, Picker.ts lines 216-227)

`A` is a one-element `Uint32Array`; every store applies ToUint32, every read
yields the unsigned value. -/

/-- Model of `hashInt`: remaps objectIds to pseudo-random 32-bit integers for
the debug overlay. -/
def hashInt (x : ℤ) : ℤ :=
  let a0 := jsToUint32 (jsOr x 0)
  let a1 := jsToUint32 (a0 - jsShl a0 6)
  let a2 := jsToUint32 (jsXor a1 (jsShrU a1 17))
  let a3 := jsToUint32 (a2 - jsShl a2 9)
  let a4 := jsToUint32 (jsXor a3 (jsShl a3 4))
  let a5 := jsToUint32 (a4 - jsShl a4 3)
  let a6 := jsToUint32 (jsXor a5 (jsShl a5 10))
  jsToUint32 (jsXor a6 (jsShrU a6 15))

/-! ### JavaScript numbers carried by uniforms

The only non-rational value the source produces is the `NaN` placeholder in a
freshly constructed picking material's `objectId` uniform. -/

/-- A JavaScript number as a uniform component: `NaN` or an exact rational. -/
inductive JSNum where
  | NaN : JSNum
  | val : ℚ → JSNum
deriving DecidableEq

/-- GPU write of one normalised float channel into an 8-bit buffer:
clamp to [0,1], scale by 255, round.  NaN clamps to 0. -/
def quantizeChannel : JSNum → ℕ
  | JSNum.NaN => 0
  | JSNum.val q => (round (255 * max 0 (min 1 q))).toNat

/-! ### Identifier encoding and decoding

`processItem` (lines 204-209) writes the objectId into the uniform as four
normalised byte channels; `pick` (lines 119-123) decodes the readback bytes
with signed 32-bit shifts. -/

/-- The four normalised channels written into the `objectId` uniform
(Picker.ts lines 204-209). -/
def encodeObjectIdValue (objId : ℤ) : JSNum × JSNum × JSNum × JSNum :=
  (JSNum.val ((jsAnd (jsShr objId 24) 255 : ℤ) / 255),
   JSNum.val ((jsAnd (jsShr objId 16) 255 : ℤ) / 255),
   JSNum.val ((jsAnd (jsShr objId 8) 255 : ℤ) / 255),
   JSNum.val ((jsAnd objId 255 : ℤ) / 255))

/-- One pixel of a render target, four 8-bit channels. -/
structure Pixel where
  r : ℕ
  g : ℕ
  b : ℕ
  a : ℕ
deriving DecidableEq

/-- The bytes a draw call stores for its uniform colour. -/
def pixelOfValue (v : JSNum × JSNum × JSNum × JSNum) : Pixel :=
  ⟨quantizeChannel v.1, quantizeChannel v.2.1,
   quantizeChannel v.2.2.1, quantizeChannel v.2.2.2⟩

/-- The decode of four readback bytes (Picker.ts lines 119-123):
`(b0 << 24) + (b1 << 16) + (b2 << 8) + b3` with JavaScript signed shifts. -/
def decodePixelBytes (b0 b1 b2 b3 : ℕ) : ℤ :=
  jsShl b0 24 + jsShl b1 16 + jsShl b2 8 + (b3 : ℤ)

/-- Encode an identifier as the uniform channels, store them through the
8-bit colour buffer, and decode the four bytes as `pick` does. -/
def encodeRoundTrip (objId : ℤ) : ℤ :=
  let px := pixelOfValue (encodeObjectIdValue objId)
  decodePixelBytes px.r px.g px.b px.a


/-! ### Arithmetic facts about the encode/decode pair -/

theorem land_255_eq_mod (u : ℕ) : Nat.land u 255 = u % 256 := by
  have := @Nat.and_pow_two_sub_one_eq_mod u 8
  norm_num at this
  exact this

theorem jsAnd_255 (j : ℤ) : jsAnd j 255 = j % 256 := by
  unfold jsAnd jsToUint32
  have h255 : ((255 : ℤ) % 2 ^ 32).toNat = 255 := by decide
  rw [h255, land_255_eq_mod]
  unfold jsToInt32
  omega

theorem encode_byte_shift (j : ℤ) (k : ℕ) (hk : k = 24 ∨ k = 16 ∨ k = 8) :
    jsAnd (jsShr j k) 255 = (jsToInt32 j / 2 ^ k) % 256 := by
  rw [jsAnd_255]
  unfold jsShr
  rcases hk with rfl | rfl | rfl <;> rfl

theorem encode_byte_shift_of_lt (j : ℤ) (k : ℕ) (hk : k = 24 ∨ k = 16 ∨ k = 8)
    (h0 : 0 ≤ j) (h : j < 2 ^ 32) :
    jsAnd (jsShr j k) 255 = (j / 2 ^ k) % 256 := by
  rw [jsAnd_255]
  unfold jsShr jsToInt32
  rcases hk with rfl | rfl | rfl <;> omega

theorem quantize_byte (b : ℤ) (h0 : 0 ≤ b) (h1 : b ≤ 255) :
    quantizeChannel (JSNum.val ((b : ℚ) / 255)) = b.toNat := by
  simp only [quantizeChannel]
  have hnn : (0 : ℚ) ≤ (b : ℚ) / 255 := by positivity
  have hle : ((b : ℚ) / 255) ≤ 1 := by
    rw [div_le_one (by norm_num)]
    exact_mod_cast h1
  rw [min_eq_right hle, max_eq_right hnn]
  rw [mul_div_cancel₀ _ (by norm_num : (255 : ℚ) ≠ 0)]
  rw [round_intCast]

theorem jsToInt32_small (x : ℤ) (h0 : -(2 ^ 31) ≤ x) (h1 : x < 2 ^ 31) : jsToInt32 x = x := by
  unfold jsToInt32
  omega

theorem decode_combine (b0 b1 b2 b3 : ℕ) (h0 : b0 < 256) (h1 : b1 < 256) (h2 : b2 < 256)
    (h3 : b3 < 256) :
    decodePixelBytes b0 b1 b2 b3
      = jsToInt32 ((b0 : ℤ) * 2 ^ 24 + b1 * 2 ^ 16 + b2 * 2 ^ 8 + b3) := by
  unfold decodePixelBytes jsShl
  rw [jsToInt32_small (b0 : ℤ) (by omega) (by omega)]
  rw [jsToInt32_small (b1 : ℤ) (by omega) (by omega)]
  rw [jsToInt32_small (b2 : ℤ) (by omega) (by omega)]
  rw [jsToInt32_small ((b1 : ℤ) * 2 ^ 16) (by omega) (by omega)]
  rw [jsToInt32_small ((b2 : ℤ) * 2 ^ 8) (by omega) (by omega)]
  unfold jsToInt32
  omega

theorem encodeRoundTrip_eq (j : ℤ) (h0 : 0 ≤ j) (h : j < 2 ^ 32) :
    encodeRoundTrip j = jsToInt32 j := by
  unfold encodeRoundTrip
  simp only [pixelOfValue, encodeObjectIdValue]
  rw [encode_byte_shift_of_lt j 24 (by norm_num) h0 h,
      encode_byte_shift_of_lt j 16 (by norm_num) h0 h,
      encode_byte_shift_of_lt j 8 (by norm_num) h0 h, jsAnd_255]
  rw [quantize_byte _ (by omega) (by omega), quantize_byte _ (by omega) (by omega),
      quantize_byte _ (by omega) (by omega), quantize_byte _ (by omega) (by omega)]
  rw [decode_combine _ _ _ _ (by omega) (by omega) (by omega) (by omega)]
  congr 1
  push_cast
  omega

/-- Claim C1 (corrected): for an identifier `id` in `[0, 2 ^ 32)`, encoding it as
the four big-endian 8-bit channels exactly as `processItem` does and decoding
the stored bytes exactly as `pick` does yields the SIGNED 32-bit reinterpretation
`jsToInt32 id` of `id` (the decode uses JavaScript signed shifts); the round
trip yields `id` itself exactly when `id < 2 ^ 31`. -/
theorem claim_C1 (id : ℤ) (h0 : 0 ≤ id) (h : id < 2 ^ 32) :
    encodeRoundTrip id = jsToInt32 id ∧ (id < 2 ^ 31 → encodeRoundTrip id = id) := by
  refine ⟨encodeRoundTrip_eq id h0 h, fun hlt => ?_⟩
  rw [encodeRoundTrip_eq id h0 h]
  exact jsToInt32_small id (by omega) hlt

/-- Witness for C1 at the identifier 305419896 = 0x12345678. -/
theorem claim_C1_witness :
    (0 : ℤ) ≤ 305419896 ∧ (305419896 : ℤ) < 2 ^ 32 ∧
      (encodeRoundTrip 305419896 = jsToInt32 305419896 ∧
        ((305419896 : ℤ) < 2 ^ 31 → encodeRoundTrip 305419896 = 305419896)) :=
  ⟨by norm_num, by norm_num, claim_C1 305419896 (by norm_num) (by norm_num)⟩

/-- Counterexample for C1 as stated: the identifier `2 ^ 31` lies in `[0, 2 ^ 32)`
but its encode/decode round trip yields `-(2 ^ 31)`, not `2 ^ 31`. -/
theorem claim_C1_counterexample :
    (0 : ℤ) ≤ 2147483648 ∧ (2147483648 : ℤ) < 2 ^ 32 ∧
      encodeRoundTrip 2147483648 ≠ 2147483648 := by
  refine ⟨by norm_num, by norm_num, ?_⟩
  rw [encodeRoundTrip_eq 2147483648 (by norm_num) (by norm_num)]
  decide


/-! ### The scene-graph and renderer boundary

Materials live in an arena (`matStore`); an id is an index into it, so that
"same material instance" is id equality, exactly as JavaScript object identity.
Rasterisation is abstracted by a per-object `coverage` predicate over the
pixels of the bound render target; everything else follows the source. -/

/-- The uniforms record of a material.  `objectId` is the identifier colour
uniform; `rotation` and `center` are the sprite uniforms `processItem` copies. -/
structure Uniforms where
  objectId : Option (JSNum × JSNum × JSNum × JSNum)
  rotation : Option ℚ
  center : Option (ℚ × ℚ)
deriving DecidableEq

/-- A material at the boundary Picker sees: its `type` string (the sprite
check), its `sizeAttenuation` flag (absent on most materials), the
`rotation` of a sprite material, shader sources and uniforms. -/
structure Material where
  type : String
  sizeAttenuation : Option Bool
  rotation : ℚ
  vertexShader : String
  fragmentShader : String
  doubleSided : Bool
  uniforms : Uniforms
deriving DecidableEq

/-- The default used for out-of-arena material lookups: a plain material with
no `objectId` uniform. -/
def defaultMaterial : Material :=
  { type := "MeshBasicMaterial", sizeAttenuation := none, rotation := 0,
    vertexShader := "", fragmentShader := "", doubleSided := false,
    uniforms := { objectId := none, rotation := none, center := none } }

/-- A scene object as `processItem` reads it: `id`, the `userData.picking`
opt-out flag, the optional `userData.pickingMaterial` override (an arena id),
the instancing flag, a sprite's `center`, and the abstract rasterisation
coverage of the object over the bound target's pixels. -/
structure Object where
  id : ℕ
  userDataPicking : Option Bool
  userDataPickingMaterial : Option ℕ
  isInstancedMesh : Bool
  center : ℚ × ℚ
  coverage : ℕ → Bool

/-- One entry of the renderer's draw-item lists. -/
structure RenderItem where
  object : Object
  geometry : Option ℕ
  material : ℕ

/-- The renderer's per-frame draw-item lists for the real scene. -/
structure RenderList where
  opaqueItems : List RenderItem
  transmissive : List RenderItem
  transparent : List RenderItem

/-- A render-target handle: the default framebuffer (`canvas`, i.e. the null
target), Picker's `pickingTarget`, or some other target owned by the host. -/
inductive RT where
  | canvas : RT
  | pickingTarget : RT
  | other : ℕ → RT
deriving DecidableEq

/-- The WebGL renderer state Picker touches: pixel ratio, canvas size, bound
render target, clear colour (24-bit hex) and alpha, per-target pixel storage,
the prepared draw-item lists, and a log of the direct draw calls submitted
(material arena id, encoded identifier). -/
structure GLState where
  pixelRatio : ℚ
  domWidth : ℕ
  domHeight : ℕ
  renderTarget : RT
  clearColorHex : ℕ
  clearAlpha : ℚ
  buffers : RT → ℕ → Pixel
  renderList : RenderList
  drawLog : List (ℕ × ℤ)

/-- A camera view offset as set by `setViewOffset`. -/
structure ViewOffset where
  fullWidth : ℕ
  fullHeight : ℕ
  offsetX : ℚ
  offsetY : ℚ
  width : ℕ
  height : ℕ

/-- The camera state Picker touches. -/
structure CameraState where
  viewOffset : Option ViewOffset

/-- Picker's own fields (Picker.ts lines 40-50), plus disposal bookkeeping:
`disposedMaterials` records every arena id whose `dispose()` was called and
`pickingTargetDisposed` whether the offscreen target was released. -/
structure PickerState where
  shouldPickObjectCB : Object → Bool
  materialCache : List (ℕ × ℕ)
  pixelBuffer : ℕ → ℕ
  currClearColor : ℕ
  debug : Bool
  isDebugPass : Bool
  pickingTargetDisposed : Bool
  disposedMaterials : List ℕ

/-- The whole mutable world of one Picker: renderer, camera, picker fields and
the material arena. -/
structure Env where
  gl : GLState
  cam : CameraState
  picker : PickerState
  matStore : List Material

/-! ### Constants of Picker.ts -/

/-- The width and height of the output viewport (Picker.ts line 16). -/
def PIXEL_WIDTH : ℕ := 9

/-- `WHITE_COLOR = new THREE.Color(0xffffff)` (line 18). -/
def WHITE_COLOR : ℕ := 0xffffff

/-- The default accept-everything predicate (line 20). -/
def AlwaysPickObject : Object → Bool := fun _ => true

/-- Length of the readback buffer: `4 * width * height` bytes (line 71). -/
def pixelBufferLength : ℕ := 4 * PIXEL_WIDTH * PIXEL_WIDTH

/-- The error thrown at Picker.ts line 202. -/
def objectIdUniformError : String := "objectId uniform not found in picking material"

/-- `THREE.ShaderChunk.meshbasic_vert`, an opaque shader-library string. -/
def ShaderChunk_meshbasic_vert : String := "meshbasic_vert"

/-- `THREE.ShaderChunk.sprite_vert`, an opaque shader-library string. -/
def ShaderChunk_sprite_vert : String := "sprite_vert"

/-- The fragment stage of a cache-constructed picking material
(lines 185-190): it outputs the `objectId` uniform as the fragment colour. -/
def pickerFragmentShader : String :=
  "uniform vec4 objectId; void main() \x7b gl_FragColor = objectId; \x7d"

/-! ### Operations of the renderer boundary -/

/-- One channel of a pixel, in readback order r, g, b, a. -/
def pixelChannel (px : Pixel) : ℕ → ℕ
  | 0 => px.r
  | 1 => px.g
  | 2 => px.b
  | _ => px.a

/-- The pixel a `clear()` writes: the clear colour's three bytes and the
quantised clear alpha. -/
def colorToPixel (hex : ℕ) (alpha : ℚ) : Pixel :=
  ⟨hex / 2 ^ 16 % 256, hex / 2 ^ 8 % 256, hex % 256, quantizeChannel (JSNum.val alpha)⟩

/-- `gl.clear()`: fill every pixel of the bound render target with the clear
colour and alpha. -/
def glClear (gl : GLState) : GLState :=
  { gl with
    buffers := fun rt p =>
      if rt = gl.renderTarget then colorToPixel gl.clearColorHex gl.clearAlpha
      else gl.buffers rt p }

/-- `gl.renderBufferDirect(camera, null, geometry, material, object, null)`:
rasterise the object's coverage into the bound target with the material's
current `objectId` uniform colour, and log the draw call. -/
def renderBufferDirect (gl : GLState) (object : Object) (matId : ℕ) (objId : ℤ)
    (value : JSNum × JSNum × JSNum × JSNum) : GLState :=
  { gl with
    buffers := fun rt p =>
      if rt = gl.renderTarget ∧ object.coverage p then pixelOfValue value
      else gl.buffers rt p,
    drawLog := gl.drawLog ++ [(matId, objId)] }

/-- JavaScript indexing `buf[idx]` of a `Uint8Array` of length `len` with a
number index, followed by use in 32-bit arithmetic: an integral in-bounds
index reads the byte, everything else (fractional or out of bounds) gives
`undefined`, which the `<<`/`+` chain treats as 0. -/
def readByte (buf : ℕ → ℕ) (len : ℕ) (idx : ℚ) : ℕ :=
  if idx.den = 1 ∧ 0 ≤ idx.num ∧ idx.num < len then buf idx.num.toNat else 0

/-! ### processItem (Picker.ts lines 153-212) -/

/-- The skip test of lines 158-164: no geometry, `userData.picking === false`,
or rejection by the active predicate. -/
def skipCheck (env : Env) (item : RenderItem) : Prop :=
  item.geometry = none ∨ item.object.userDataPicking = some false ∨
    env.picker.shouldPickObjectCB item.object = false

instance (env : Env) (item : RenderItem) : Decidable (skipCheck env item) := by
  unfold skipCheck
  infer_instance

/-- The material-cache key of line 170:
`(useInstancing << 0) | (sprite << 1) | (sizeAttenuation << 2)`. -/
def featureIndex (useInstancing sprite sizeAttenuation : ℕ) : ℕ :=
  Nat.lor (Nat.lor (Nat.shiftLeft useInstancing 0) (Nat.shiftLeft sprite 1))
    (Nat.shiftLeft sizeAttenuation 2)

/-- A fresh cache-path picking material (lines 176-193): the feature-selected
vertex stage, the uniform-colour fragment stage, double sided, and an
`objectId` uniform initialised to four NaN channels. -/
def newPickingMaterial (sprite sizeAttenuation : ℕ) : Material :=
  let vertexShader :=
    if sprite = 1 then ShaderChunk_sprite_vert else ShaderChunk_meshbasic_vert
  let vertexShader :=
    if sizeAttenuation = 1 then "#define USE_SIZEATTENUATION\n\n" ++ vertexShader
    else vertexShader
  { type := "ShaderMaterial", sizeAttenuation := none, rotation := 0,
    vertexShader := vertexShader, fragmentShader := pickerFragmentShader,
    doubleSided := true,
    uniforms := { objectId := some (JSNum.NaN, JSNum.NaN, JSNum.NaN, JSNum.NaN),
                  rotation := none, center := none } }

/-- Update the material at `matId` in the arena in place. -/
def updateMat (env : Env) (matId : ℕ) (f : Material → Material) : Env :=
  { env with matStore := env.matStore.set matId (f (env.matStore.getD matId defaultMaterial)) }

/-- Lines 174-195: `renderMaterial = pickingMaterial ?? materialCache.get(index)`,
creating and caching a fresh picking material when both are absent.  Returns
the updated world and the arena id of the chosen material. -/
def ensureMaterial (env : Env) (item : RenderItem) (index sprite sizeAttenuation : ℕ) :
    Env × ℕ :=
  match item.object.userDataPickingMaterial with
  | some mid => (env, mid)
  | none =>
    match List.lookup index env.picker.materialCache with
    | some mid => (env, mid)
    | none =>
      let mid := env.matStore.length
      ({ env with
          matStore := env.matStore ++ [newPickingMaterial sprite sizeAttenuation],
          picker := { env.picker with
            materialCache := (index, mid) :: env.picker.materialCache } },
        mid)

/-- Lines 196-199: for sprites, copy the original material's `rotation` and the
object's `center` into the picking material's uniforms. -/
def copySpriteUniforms (env : Env) (matId : ℕ) (original : Material) (object : Object) : Env :=
  updateMat env matId fun m =>
    { m with uniforms := { m.uniforms with
        rotation := some original.rotation, center := some object.center } }

/-- Lines 204-210: store the encoded identifier in the `objectId` uniform. -/
def setObjectIdUniform (env : Env) (matId : ℕ) (value : JSNum × JSNum × JSNum × JSNum) : Env :=
  updateMat env matId fun m =>
    { m with uniforms := { m.uniforms with objectId := some value } }

/-- The identifier written for an item: the object id, or its hash during the
debug overlay pass (line 155). -/
def itemObjId (env : Env) (item : RenderItem) : ℤ :=
  if env.picker.isDebugPass then hashInt item.object.id else (item.object.id : ℤ)

/-- Bit 0 of the cache key: `object.isInstancedMesh === true` (line 166). -/
def useInstancingBit (object : Object) : ℕ := if object.isInstancedMesh then 1 else 0

/-- Bit 1 of the cache key: `material.type === "SpriteMaterial"` (line 167). -/
def spriteBit (material : Material) : ℕ := if material.type = "SpriteMaterial" then 1 else 0

/-- Bit 2 of the cache key: `material.sizeAttenuation === true` (lines 168-169). -/
def sizeAttenuationBit (material : Material) : ℕ :=
  if material.sizeAttenuation = some true then 1 else 0

/-- The item's material as read from the arena. -/
def itemMaterial (env : Env) (item : RenderItem) : Material :=
  env.matStore.getD item.material defaultMaterial

/-- The cache key of an item (line 170). -/
def itemFeatureIndex (env : Env) (item : RenderItem) : ℕ :=
  featureIndex (useInstancingBit item.object) (spriteBit (itemMaterial env item))
    (sizeAttenuationBit (itemMaterial env item))

/-- Lines 196-211: the sprite-uniform copy, the objectId-uniform check (throwing
when it is absent), the uniform store and the direct draw call. -/
def processDraw (env1 : Env) (item : RenderItem) (material : Material) (rmId : ℕ)
    (objId : ℤ) : Env × Option String :=
  let env2 := if spriteBit material = 1 then copySpriteUniforms env1 rmId material item.object
              else env1
  match ((env2.matStore.getD rmId defaultMaterial).uniforms).objectId with
  | none => (env2, some objectIdUniformError)
  | some _ =>
    let value := encodeObjectIdValue objId
    let env3 := setObjectIdUniform env2 rmId value
    ({ env3 with gl := renderBufferDirect env3.gl item.object rmId objId value }, none)

/-- Lines 166-211 for a non-skipped item: select the material, then draw. -/
def processEligible (env : Env) (item : RenderItem) (objId : ℤ) : Env × Option String :=
  let material := itemMaterial env item
  let step := ensureMaterial env item (itemFeatureIndex env item) (spriteBit material)
    (sizeAttenuationBit material)
  processDraw step.1 item material step.2 objId

/-- `processItem` (lines 153-212).  Returns the updated world and `some error`
when the objectId-uniform check of lines 200-203 throws. -/
def processItem (env : Env) (item : RenderItem) : Env × Option String :=
  if skipCheck env item then (env, none)
  else processEligible env item (itemObjId env item)

/-- Process a list of draw items in order, stopping at the first thrown
error, as a `forEach` with an exception does. -/
def runItems : Env → List RenderItem → Env × Option String
  | env, [] => (env, none)
  | env, item :: rest =>
    match processItem env item with
    | (env1, none) => runItems env1 rest
    | (env1, some e) => (env1, some e)

/-- `handleAfterRender` (lines 144-151): replay the host's opaque, transmissive
and transparent draw-item lists, in that order. -/
def handleAfterRender (env : Env) : Env × Option String :=
  runItems env
    (env.gl.renderList.opaqueItems ++ env.gl.renderList.transmissive ++
      env.gl.renderList.transparent)


/-! ### pickDebugRender, pick and dispose (Picker.ts lines 78-142) -/

/-- `pickDebugRender` (lines 132-142): re-render the identifier pass, with
hashed ids, to the currently bound target so a developer can see it.  On the
two render-throw exit path the trailing restores are skipped, exactly as in
the source. -/
def pickDebugRender (env0 : Env) : Env × Option String :=
  let env := { env0 with picker := { env0.picker with isDebugPass := true } }
  let currAlpha := env.gl.clearAlpha
  let env := { env with picker := { env.picker with currClearColor := env.gl.clearColorHex } }
  let env := { env with gl := { env.gl with clearColorHex := WHITE_COLOR, clearAlpha := 1 } }
  let env := { env with gl := glClear env.gl }
  match handleAfterRender env with
  | (env1, some e) => (env1, some e)
  | (env1, none) =>
    let env2 := { env1 with gl := { env1.gl with
      clearColorHex := env1.picker.currClearColor, clearAlpha := currAlpha } }
    ({ env2 with picker := { env2.picker with isDebugPass := false } }, none)

/-- The state mutations of Picker.ts lines 87-102: install the predicate,
set the camera view offset to the 9 x 9 window at `(xi, yi)`, save the clear
colour into `currClearColor`, bind the picking target, set the white clear
colour and full alpha, and clear. -/
def pickPrepare (env0 : Env) (xi yi : ℚ) (shouldPickObject : Object → Bool) : Env :=
  let env := { env0 with picker := { env0.picker with shouldPickObjectCB := shouldPickObject } }
  let vo := ViewOffset.mk env.gl.domWidth env.gl.domHeight xi yi PIXEL_WIDTH PIXEL_WIDTH
  let env := { env with cam := { viewOffset := some vo } }
  let env := { env with picker := { env.picker with currClearColor := env.gl.clearColorHex } }
  let env := { env with gl := { env.gl with
    renderTarget := RT.pickingTarget, clearColorHex := WHITE_COLOR, clearAlpha := 1 } }
  { env with gl := glClear env.gl }

/-- `readRenderTargetPixels` (lines 104-111): copy the picking target's
9 x 9 pixels into the flat byte-readback buffer. -/
def readbackPixels (env : Env) : Env :=
  { env with picker := { env.picker with
      pixelBuffer := fun i =>
        pixelChannel (env.gl.buffers RT.pickingTarget (i / 4)) (i % 4) } }

/-- The restore sequence of lines 112-114: rebind the saved render target,
restore the saved clear colour and alpha, clear the camera view offset. -/
def pickRestore (env : Env) (savedTarget : RT) (savedAlpha : ℚ) : Env :=
  { env with
    gl := { env.gl with
      renderTarget := savedTarget,
      clearColorHex := env.picker.currClearColor,
      clearAlpha := savedAlpha },
    cam := { viewOffset := none } }

/-- The decode of lines 116-123: window-relative sample offsets
`xo = min(hw, xi)`, `yo = min(hw, yi)`, flat byte offset
`(yo * PIXEL_WIDTH + xo) * 4`, and the four-byte signed decode. -/
def decodeVal (buf : ℕ → ℕ) (xi yi : ℚ) : ℤ :=
  let hw : ℕ := PIXEL_WIDTH / 2
  let xo : ℚ := min (hw : ℚ) xi
  let yo : ℚ := min (hw : ℚ) yi
  let offset : ℚ := (yo * (PIXEL_WIDTH : ℚ) + xo) * 4
  jsShl (readByte buf pixelBufferLength (offset + 0)) 24 +
    jsShl (readByte buf pixelBufferLength (offset + 1)) 16 +
    jsShl (readByte buf pixelBufferLength (offset + 2)) 8 +
    (readByte buf pixelBufferLength (offset + 3) : ℤ)

/-- `pick(x, y, shouldPickObject)` (lines 86-130).  The result is the final
world plus either the decoded identifier or the propagated thrown error; on
the error exit the intermediate state mutations are left in place, exactly as
in the source, where no try/finally protects the restore sequence. -/
def pick (env0 : Env) (x y : ℚ) (shouldPickObject : Object → Bool) : Env × Except String ℤ :=
  let hw : ℕ := PIXEL_WIDTH / 2
  let xi : ℚ := max 0 (x * env0.gl.pixelRatio - hw)
  let yi : ℚ := max 0 (y * env0.gl.pixelRatio - hw)
  let currRenderTarget := env0.gl.renderTarget
  let currAlpha := env0.gl.clearAlpha
  match handleAfterRender (pickPrepare env0 xi yi shouldPickObject) with
  | (env1, some e) => (env1, Except.error e)
  | (env1, none) =>
    let env2 := pickRestore (readbackPixels env1) currRenderTarget currAlpha
    let val := decodeVal env2.picker.pixelBuffer xi yi
    if env2.picker.debug then
      match pickDebugRender env2 with
      | (env3, some e) => (env3, Except.error e)
      | (env3, none) => (env3, Except.ok val)
    else (env2, Except.ok val)

/-- `dispose()` (lines 78-84): release every cached material, clear the cache,
release the offscreen target.  None of these operations can throw, so the
model is a total function. -/
def dispose (env : Env) : Env :=
  { env with picker := { env.picker with
      disposedMaterials :=
        env.picker.disposedMaterials ++ env.picker.materialCache.map Prod.snd,
      materialCache := [],
      pickingTargetDisposed := true } }

/-! ### Structural lemmas about processItem, runItems and pick -/

theorem eta_env (env : Env) :
    ({ env with
        gl := { env.gl with buffers := env.gl.buffers, drawLog := env.gl.drawLog },
        picker := { env.picker with materialCache := env.picker.materialCache },
        matStore := env.matStore }) = env := rfl

theorem ensureMaterial_shape (env : Env) (item : RenderItem) (i s a : ℕ) :
    ∃ cache store,
      (ensureMaterial env item i s a).1 =
        { env with picker := { env.picker with materialCache := cache }, matStore := store } := by
  unfold ensureMaterial
  split
  · exact ⟨env.picker.materialCache, env.matStore, rfl⟩
  · split
    · exact ⟨env.picker.materialCache, env.matStore, rfl⟩
    · exact ⟨_, _, rfl⟩

theorem processDraw_shape (env1 : Env) (item : RenderItem) (material : Material) (rmId : ℕ)
    (objId : ℤ) :
    ∃ bufs dlog store,
      (processDraw env1 item material rmId objId).1 =
        { env1 with
          gl := { env1.gl with buffers := bufs, drawLog := dlog },
          matStore := store } := by
  unfold processDraw
  split
  · unfold copySpriteUniforms updateMat
    dsimp only
    split
    · exact ⟨_, _, _, rfl⟩
    · exact ⟨_, _, _, rfl⟩
  · dsimp only
    split
    · exact ⟨_, _, _, rfl⟩
    · exact ⟨_, _, _, rfl⟩

theorem processItem_shape (env : Env) (item : RenderItem) :
    ∃ bufs dlog cache store,
      (processItem env item).1 =
        { env with
          gl := { env.gl with buffers := bufs, drawLog := dlog },
          picker := { env.picker with materialCache := cache },
          matStore := store } := by
  unfold processItem
  split
  · exact ⟨env.gl.buffers, env.gl.drawLog, env.picker.materialCache, env.matStore, eta_env env⟩
  · unfold processEligible
    dsimp only
    obtain ⟨cache, store, h1⟩ := ensureMaterial_shape env item (itemFeatureIndex env item)
      (spriteBit (itemMaterial env item)) (sizeAttenuationBit (itemMaterial env item))
    obtain ⟨bufs, dlog, store2, h2⟩ := processDraw_shape
      (ensureMaterial env item (itemFeatureIndex env item) (spriteBit (itemMaterial env item))
        (sizeAttenuationBit (itemMaterial env item))).1
      item (itemMaterial env item)
      (ensureMaterial env item (itemFeatureIndex env item) (spriteBit (itemMaterial env item))
        (sizeAttenuationBit (itemMaterial env item))).2 (itemObjId env item)
    refine ⟨bufs, dlog, cache, store2, ?_⟩
    rw [h2, h1]

theorem runItems_shape (items : List RenderItem) (env : Env) :
    ∃ bufs dlog cache store,
      (runItems env items).1 =
        { env with
          gl := { env.gl with buffers := bufs, drawLog := dlog },
          picker := { env.picker with materialCache := cache },
          matStore := store } := by
  induction items generalizing env with
  | nil =>
    exact ⟨env.gl.buffers, env.gl.drawLog, env.picker.materialCache, env.matStore, eta_env env⟩
  | cons item rest ih =>
    unfold runItems
    obtain ⟨b1, d1, c1, s1, h1⟩ := processItem_shape env item
    rcases hpi : processItem env item with ⟨env1, err⟩
    rw [hpi] at h1
    dsimp only at h1
    cases err with
    | none =>
      dsimp only
      obtain ⟨b2, d2, c2, s2, h2⟩ := ih env1
      refine ⟨b2, d2, c2, s2, ?_⟩
      rw [h2, h1]
    | some e =>
      exact ⟨b1, d1, c1, s1, h1⟩

theorem runItems_renderTarget (items : List RenderItem) (env : Env) :
    (runItems env items).1.gl.renderTarget = env.gl.renderTarget := by
  obtain ⟨b, d, c, s, h⟩ := runItems_shape items env
  rw [h]

theorem runItems_clearColorHex (items : List RenderItem) (env : Env) :
    (runItems env items).1.gl.clearColorHex = env.gl.clearColorHex := by
  obtain ⟨b, d, c, s, h⟩ := runItems_shape items env
  rw [h]

theorem runItems_clearAlpha (items : List RenderItem) (env : Env) :
    (runItems env items).1.gl.clearAlpha = env.gl.clearAlpha := by
  obtain ⟨b, d, c, s, h⟩ := runItems_shape items env
  rw [h]

theorem runItems_cam (items : List RenderItem) (env : Env) :
    (runItems env items).1.cam = env.cam := by
  obtain ⟨b, d, c, s, h⟩ := runItems_shape items env
  rw [h]

theorem runItems_currClearColor (items : List RenderItem) (env : Env) :
    (runItems env items).1.picker.currClearColor = env.picker.currClearColor := by
  obtain ⟨b, d, c, s, h⟩ := runItems_shape items env
  rw [h]

theorem runItems_debug (items : List RenderItem) (env : Env) :
    (runItems env items).1.picker.debug = env.picker.debug := by
  obtain ⟨b, d, c, s, h⟩ := runItems_shape items env
  rw [h]

theorem runItems_pixelBuffer (items : List RenderItem) (env : Env) :
    (runItems env items).1.picker.pixelBuffer = env.picker.pixelBuffer := by
  obtain ⟨b, d, c, s, h⟩ := runItems_shape items env
  rw [h]

theorem processItem_skip (env : Env) (item : RenderItem) (h : skipCheck env item) :
    processItem env item = (env, none) := by
  unfold processItem
  rw [if_pos h]

theorem runItems_skipAll (items : List RenderItem) (env : Env)
    (h : ∀ it ∈ items, skipCheck env it) : runItems env items = (env, none) := by
  induction items with
  | nil => rfl
  | cons item rest ih =>
    unfold runItems
    rw [processItem_skip env item (h item (List.mem_cons_self item rest))]
    exact ih fun it hit => h it (List.mem_cons_of_mem item hit)

theorem pickPrepare_currClearColor (env : Env) (xi yi : ℚ) (cb : Object → Bool) :
    (pickPrepare env xi yi cb).picker.currClearColor = env.gl.clearColorHex := rfl

theorem pickPrepare_renderTarget (env : Env) (xi yi : ℚ) (cb : Object → Bool) :
    (pickPrepare env xi yi cb).gl.renderTarget = RT.pickingTarget := rfl

theorem pickPrepare_renderList (env : Env) (xi yi : ℚ) (cb : Object → Bool) :
    (pickPrepare env xi yi cb).gl.renderList = env.gl.renderList := rfl

theorem pickPrepare_shouldPick (env : Env) (xi yi : ℚ) (cb : Object → Bool) :
    (pickPrepare env xi yi cb).picker.shouldPickObjectCB = cb := rfl

theorem pickPrepare_debug (env : Env) (xi yi : ℚ) (cb : Object → Bool) :
    (pickPrepare env xi yi cb).picker.debug = env.picker.debug := rfl

theorem pickPrepare_buffers (env : Env) (xi yi : ℚ) (cb : Object → Bool) (p : ℕ) :
    (pickPrepare env xi yi cb).gl.buffers RT.pickingTarget p = Pixel.mk 255 255 255 255 := by
  show (if RT.pickingTarget = RT.pickingTarget then colorToPixel WHITE_COLOR 1
        else env.gl.buffers RT.pickingTarget p) = Pixel.mk 255 255 255 255
  rw [if_pos rfl]
  show Pixel.mk 255 255 255 (round ((255 : ℚ) * max 0 (min 1 1))).toNat = Pixel.mk 255 255 255 255
  norm_num
  decide

theorem handleAfterRender_renderTarget (env : Env) :
    (handleAfterRender env).1.gl.renderTarget = env.gl.renderTarget := by
  unfold handleAfterRender
  exact runItems_renderTarget _ _

theorem handleAfterRender_cam (env : Env) :
    (handleAfterRender env).1.cam = env.cam := by
  unfold handleAfterRender
  exact runItems_cam _ _

theorem handleAfterRender_currClearColor (env : Env) :
    (handleAfterRender env).1.picker.currClearColor = env.picker.currClearColor := by
  unfold handleAfterRender
  exact runItems_currClearColor _ _

theorem handleAfterRender_debug (env : Env) :
    (handleAfterRender env).1.picker.debug = env.picker.debug := by
  unfold handleAfterRender
  exact runItems_debug _ _

theorem handleAfterRender_pixelBuffer (env : Env) :
    (handleAfterRender env).1.picker.pixelBuffer = env.picker.pixelBuffer := by
  unfold handleAfterRender
  exact runItems_pixelBuffer _ _

theorem pickDebugRender_ok (env env' : Env) (h : pickDebugRender env = (env', none)) :
    env'.gl.renderTarget = env.gl.renderTarget ∧
    env'.gl.clearColorHex = env.gl.clearColorHex ∧
    env'.gl.clearAlpha = env.gl.clearAlpha ∧
    env'.cam = env.cam ∧
    env'.picker.pixelBuffer = env.picker.pixelBuffer := by
  unfold pickDebugRender at h
  dsimp only at h
  split at h
  next e1 e heq => exact absurd h (by simp)
  next e1 heq =>
    have h1 : (handleAfterRender _).1 = e1 := congrArg Prod.fst heq
    injection h with hE hR
    rw [← hE]
    refine ⟨?_, ?_, ?_, ?_, ?_⟩
    · show e1.gl.renderTarget = env.gl.renderTarget
      rw [← h1]
      exact (handleAfterRender_renderTarget _).trans rfl
    · show e1.picker.currClearColor = env.gl.clearColorHex
      rw [← h1]
      exact (handleAfterRender_currClearColor _).trans rfl
    · rfl
    · show e1.cam = env.cam
      rw [← h1]
      exact (handleAfterRender_cam _).trans rfl
    · show e1.picker.pixelBuffer = env.picker.pixelBuffer
      rw [← h1]
      exact (handleAfterRender_pixelBuffer _).trans rfl

theorem pick_ok_restores (env : Env) (x y : ℚ) (cb : Object → Bool) (envF : Env) (v : ℤ)
    (h : pick env x y cb = (envF, Except.ok v)) :
    envF.gl.renderTarget = env.gl.renderTarget ∧
    envF.gl.clearColorHex = env.gl.clearColorHex ∧
    envF.gl.clearAlpha = env.gl.clearAlpha ∧
    envF.cam.viewOffset = none := by
  unfold pick at h
  dsimp only at h
  split at h
  next env1 e heq => exact absurd h (by simp)
  next env1 heq =>
    have h1 : (handleAfterRender _).1 = env1 := congrArg Prod.fst heq
    split at h
    · split at h
      next env3 e heq2 => exact absurd h (by simp)
      next env3 heq2 =>
        injection h with hE hR
        obtain ⟨hrt, hcc, hca, hcam, _⟩ := pickDebugRender_ok _ _ heq2
        rw [← hE]
        refine ⟨?_, ?_, ?_, ?_⟩
        · rw [hrt]
          rfl
        · rw [hcc]
          show env1.picker.currClearColor = env.gl.clearColorHex
          rw [← h1]
          exact (handleAfterRender_currClearColor _).trans rfl
        · rw [hca]
          rfl
        · rw [hcam]
          rfl
    · injection h with hE hR
      rw [← hE]
      refine ⟨rfl, ?_, rfl, rfl⟩
      show env1.picker.currClearColor = env.gl.clearColorHex
      rw [← h1]
      exact (handleAfterRender_currClearColor _).trans rfl

theorem pixelChannel_const (c : ℕ) : pixelChannel (Pixel.mk 255 255 255 255) c = 255 := by
  unfold pixelChannel
  rcases c with _ | _ | _ | n <;> rfl

theorem readByte_natCast (buf : ℕ → ℕ) (len k : ℕ) (h : k < len) :
    readByte buf len ((k : ℕ) : ℚ) = buf k := by
  unfold readByte
  have hq : ((k : ℕ) : ℚ).num = (k : ℤ) := Rat.num_natCast k
  rw [if_pos ⟨Rat.den_natCast k, by simp, by rw [hq]; exact_mod_cast h⟩, hq]
  simp

theorem decodeVal_sentinel (buf : ℕ → ℕ)
    (hbuf : ∀ i, i < pixelBufferLength → buf i = 255) (n m : ℕ) :
    decodeVal buf (n : ℚ) (m : ℚ) = -1 := by
  unfold decodeVal
  dsimp only
  rw [show min ((PIXEL_WIDTH / 2 : ℕ) : ℚ) (n : ℚ) = ((min (PIXEL_WIDTH / 2) n : ℕ) : ℚ) from
        (Nat.cast_min (PIXEL_WIDTH / 2) n).symm,
      show min ((PIXEL_WIDTH / 2 : ℕ) : ℚ) (m : ℚ) = ((min (PIXEL_WIDTH / 2) m : ℕ) : ℚ) from
        (Nat.cast_min (PIXEL_WIDTH / 2) m).symm]
  obtain ⟨a, ha4, ha⟩ : ∃ a, a ≤ 4 ∧ min (PIXEL_WIDTH / 2) n = a :=
    ⟨_, by unfold PIXEL_WIDTH; omega, rfl⟩
  obtain ⟨b, hb4, hb⟩ : ∃ b, b ≤ 4 ∧ min (PIXEL_WIDTH / 2) m = b :=
    ⟨_, by unfold PIXEL_WIDTH; omega, rfl⟩
  rw [ha, hb]
  have h0 : ((b : ℚ) * ((PIXEL_WIDTH : ℕ) : ℚ) + (a : ℚ)) * 4 + 0
      = (((b * PIXEL_WIDTH + a) * 4 + 0 : ℕ) : ℚ) := by push_cast; ring
  have h1 : ((b : ℚ) * ((PIXEL_WIDTH : ℕ) : ℚ) + (a : ℚ)) * 4 + 1
      = (((b * PIXEL_WIDTH + a) * 4 + 1 : ℕ) : ℚ) := by push_cast; ring
  have h2 : ((b : ℚ) * ((PIXEL_WIDTH : ℕ) : ℚ) + (a : ℚ)) * 4 + 2
      = (((b * PIXEL_WIDTH + a) * 4 + 2 : ℕ) : ℚ) := by push_cast; ring
  have h3 : ((b : ℚ) * ((PIXEL_WIDTH : ℕ) : ℚ) + (a : ℚ)) * 4 + 3
      = (((b * PIXEL_WIDTH + a) * 4 + 3 : ℕ) : ℚ) := by push_cast; ring
  rw [h0, h1, h2, h3]
  rw [readByte_natCast buf pixelBufferLength _ (by unfold pixelBufferLength PIXEL_WIDTH at *; omega),
      readByte_natCast buf pixelBufferLength _ (by unfold pixelBufferLength PIXEL_WIDTH at *; omega),
      readByte_natCast buf pixelBufferLength _ (by unfold pixelBufferLength PIXEL_WIDTH at *; omega),
      readByte_natCast buf pixelBufferLength _ (by unfold pixelBufferLength PIXEL_WIDTH at *; omega)]
  rw [hbuf _ (by unfold pixelBufferLength PIXEL_WIDTH at *; omega),
      hbuf _ (by unfold pixelBufferLength PIXEL_WIDTH at *; omega),
      hbuf _ (by unfold pixelBufferLength PIXEL_WIDTH at *; omega),
      hbuf _ (by unfold pixelBufferLength PIXEL_WIDTH at *; omega)]
  decide

theorem exists_nat_of_den_one (t : ℚ) (ht : t.den = 1) :
    ∃ n : ℕ, max 0 (t - ((PIXEL_WIDTH / 2 : ℕ) : ℚ)) = (n : ℚ) := by
  lift t to ℤ using ht with z hz
  refine ⟨(max 0 (z - (PIXEL_WIDTH / 2 : ℕ))).toNat, ?_⟩
  have hc : (((max 0 (z - (PIXEL_WIDTH / 2 : ℕ))).toNat : ℕ) : ℚ)
      = ((max 0 (z - (PIXEL_WIDTH / 2 : ℕ)) : ℤ) : ℚ) := by
    norm_cast
    rw [Int.toNat_of_nonneg (le_max_left 0 _)]
  rw [hc, Int.cast_max]
  push_cast
  rfl

theorem handleAfterRender_skipAll (env : Env)
    (h : ∀ it ∈ env.gl.renderList.opaqueItems ++ env.gl.renderList.transmissive ++
        env.gl.renderList.transparent, skipCheck env it) :
    handleAfterRender env = (env, none) := by
  unfold handleAfterRender
  exact runItems_skipAll _ env h

theorem pickDebugRender_skipAll (env : Env)
    (h : ∀ it ∈ env.gl.renderList.opaqueItems ++ env.gl.renderList.transmissive ++
        env.gl.renderList.transparent,
      it.geometry = none ∨ it.object.userDataPicking = some false ∨
        env.picker.shouldPickObjectCB it.object = false) :
    (pickDebugRender env).2 = none := by
  unfold pickDebugRender
  dsimp only
  rw [handleAfterRender_skipAll]
  intro it hit
  exact h it hit

theorem pick_sentinel (env : Env) (x y : ℚ) (cb : Object → Bool)
    (hx : (x * env.gl.pixelRatio).den = 1) (hy : (y * env.gl.pixelRatio).den = 1)
    (hsk : ∀ it ∈ env.gl.renderList.opaqueItems ++ env.gl.renderList.transmissive ++
        env.gl.renderList.transparent,
      it.geometry = none ∨ it.object.userDataPicking = some false ∨ cb it.object = false) :
    (pick env x y cb).2 = Except.ok (-1 : ℤ) := by
  unfold pick
  dsimp only
  rw [handleAfterRender_skipAll]
  case h => intro it hit; exact hsk it hit
  dsimp only
  obtain ⟨n, hn⟩ := exists_nat_of_den_one (x * env.gl.pixelRatio) hx
  obtain ⟨m, hm⟩ := exists_nat_of_den_one (y * env.gl.pixelRatio) hy
  have hval : decodeVal
      (pickRestore (readbackPixels (pickPrepare env
          (max 0 (x * env.gl.pixelRatio - ((PIXEL_WIDTH / 2 : ℕ) : ℚ)))
          (max 0 (y * env.gl.pixelRatio - ((PIXEL_WIDTH / 2 : ℕ) : ℚ))) cb))
        env.gl.renderTarget env.gl.clearAlpha).picker.pixelBuffer
      (max 0 (x * env.gl.pixelRatio - ((PIXEL_WIDTH / 2 : ℕ) : ℚ)))
      (max 0 (y * env.gl.pixelRatio - ((PIXEL_WIDTH / 2 : ℕ) : ℚ))) = -1 := by
    rw [hn, hm]
    apply decodeVal_sentinel
    intro i hi
    show pixelChannel ((pickPrepare env _ _ cb).gl.buffers RT.pickingTarget (i / 4)) (i % 4) = 255
    rw [pickPrepare_buffers]
    exact pixelChannel_const _
  rw [hval]
  split
  · rcases hdr : pickDebugRender (pickRestore (readbackPixels (pickPrepare env
        (max 0 (x * env.gl.pixelRatio - ((PIXEL_WIDTH / 2 : ℕ) : ℚ)))
        (max 0 (y * env.gl.pixelRatio - ((PIXEL_WIDTH / 2 : ℕ) : ℚ))) cb))
      env.gl.renderTarget env.gl.clearAlpha) with ⟨env3, err3⟩
    have h3 : err3 = none := by
      have := pickDebugRender_skipAll (pickRestore (readbackPixels (pickPrepare env
          (max 0 (x * env.gl.pixelRatio - ((PIXEL_WIDTH / 2 : ℕ) : ℚ)))
          (max 0 (y * env.gl.pixelRatio - ((PIXEL_WIDTH / 2 : ℕ) : ℚ))) cb))
        env.gl.renderTarget env.gl.clearAlpha) (fun it hit => hsk it hit)
      rw [hdr] at this
      exact this
    subst h3
    rfl
  · rfl

/-! ### Material selection, the cache and the objectId uniform -/

theorem getD_set_self (l : List Material) (i : ℕ) (a : Material) (h : i < l.length) :
    (l.set i a).getD i defaultMaterial = a := by
  rw [List.getD_eq_getElem?_getD, List.getElem?_set_eq_of_lt a h]
  rfl

theorem set_of_ge (l : List Material) (i : ℕ) (a : Material) (h : l.length ≤ i) :
    l.set i a = l := List.set_eq_of_length_le h

theorem getD_of_ge (l : List Material) (i : ℕ) (h : l.length ≤ i) :
    l.getD i defaultMaterial = defaultMaterial := by
  rw [List.getD_eq_getElem?_getD, List.getElem?_eq_none h]
  rfl

theorem getD_set_ne (l : List Material) (i j : ℕ) (a : Material) (h : i ≠ j) :
    (l.set i a).getD j defaultMaterial = l.getD j defaultMaterial := by
  rw [List.getD_eq_getElem?_getD, List.getElem?_set_ne h, ← List.getD_eq_getElem?_getD]

theorem getD_append_left (l l' : List Material) (i : ℕ) (h : i < l.length) :
    (l ++ l').getD i defaultMaterial = l.getD i defaultMaterial := by
  rw [List.getD_eq_getElem?_getD, List.getElem?_append, if_pos h, ← List.getD_eq_getElem?_getD]

theorem getD_concat_length (l : List Material) (a : Material) :
    (l ++ [a]).getD l.length defaultMaterial = a := by
  rw [List.getD_eq_getElem?_getD]
  simp

theorem mem_of_lookup_eq_some {a b : ℕ} {l : List (ℕ × ℕ)}
    (h : List.lookup a l = some b) : (a, b) ∈ l := by
  induction l with
  | nil => simp [List.lookup] at h
  | cons p rest ih =>
    rw [List.lookup] at h
    rcases hq : (a == p.1) with _ | _
    · rw [hq] at h
      exact List.mem_cons_of_mem p (ih h)
    · rw [hq] at h
      injection h with hb
      have ha : a = p.1 := eq_of_beq hq
      subst hb
      rw [ha]
      exact List.mem_cons_self _ _

def selectedMaterialId (env : Env) (item : RenderItem) : ℕ :=
  match item.object.userDataPickingMaterial with
  | some mid => mid
  | none =>
    match List.lookup (itemFeatureIndex env item) env.picker.materialCache with
    | some mid => mid
    | none => env.matStore.length

def selectedHasObjectId (env : Env) (item : RenderItem) : Bool :=
  match item.object.userDataPickingMaterial with
  | some mid => ((env.matStore.getD mid defaultMaterial).uniforms).objectId.isSome
  | none =>
    match List.lookup (itemFeatureIndex env item) env.picker.materialCache with
    | some mid => ((env.matStore.getD mid defaultMaterial).uniforms).objectId.isSome
    | none =>
      ((newPickingMaterial (spriteBit (itemMaterial env item))
          (sizeAttenuationBit (itemMaterial env item))).uniforms).objectId.isSome

theorem env2_gl (env1 : Env) (item : RenderItem) (material : Material) (rmId : ℕ) :
    (if spriteBit material = 1 then copySpriteUniforms env1 rmId material item.object
     else env1).gl = env1.gl := by
  split <;> rfl

theorem env2_picker (env1 : Env) (item : RenderItem) (material : Material) (rmId : ℕ) :
    (if spriteBit material = 1 then copySpriteUniforms env1 rmId material item.object
     else env1).picker = env1.picker := by
  split <;> rfl

theorem drawUniform_isSome (env1 : Env) (item : RenderItem) (material : Material) (rmId : ℕ) :
    ((((if spriteBit material = 1 then copySpriteUniforms env1 rmId material item.object
        else env1).matStore.getD rmId defaultMaterial).uniforms).objectId).isSome
      = (((env1.matStore.getD rmId defaultMaterial).uniforms).objectId).isSome := by
  split
  · unfold copySpriteUniforms updateMat
    dsimp only
    rcases Nat.lt_or_ge rmId env1.matStore.length with hlt | hge
    · rw [getD_set_self _ _ _ hlt]
    · rw [set_of_ge _ _ _ hge]
  · rfl

theorem processDraw_spec (env1 : Env) (item : RenderItem) (material : Material) (rmId : ℕ)
    (objId : ℤ) :
    ((processDraw env1 item material rmId objId).2 = none ↔
      (((env1.matStore.getD rmId defaultMaterial).uniforms).objectId).isSome = true) ∧
    ((((env1.matStore.getD rmId defaultMaterial).uniforms).objectId).isSome = true →
      (processDraw env1 item material rmId objId).1.gl.drawLog
        = env1.gl.drawLog ++ [(rmId, objId)]) ∧
    ((((env1.matStore.getD rmId defaultMaterial).uniforms).objectId).isSome = false →
      (processDraw env1 item material rmId objId).2 = some objectIdUniformError ∧
      (processDraw env1 item material rmId objId).1.gl.drawLog = env1.gl.drawLog) := by
  unfold processDraw
  dsimp only
  split
  case _ heq =>
    have hsome := congrArg Option.isSome heq
    rw [drawUniform_isSome] at hsome
    simp only [Option.isSome_none] at hsome
    refine ⟨⟨fun hc => absurd hc (by simp), fun hc => absurd (hsome.symm.trans hc) (by decide)⟩,
      fun hc => absurd (hsome.symm.trans hc) (by decide), fun _ => ⟨rfl, ?_⟩⟩
    show (if spriteBit material = 1 then copySpriteUniforms env1 rmId material item.object
          else env1).gl.drawLog = env1.gl.drawLog
    rw [env2_gl]
  case _ v heq =>
    have hsome := congrArg Option.isSome heq
    rw [drawUniform_isSome] at hsome
    simp only [Option.isSome_some] at hsome
    refine ⟨⟨fun _ => hsome, fun _ => rfl⟩, fun _ => ?_,
      fun hc => absurd (hsome.symm.trans hc) (by decide)⟩
    show (renderBufferDirect (setObjectIdUniform _ rmId _).gl item.object rmId objId _).drawLog
          = env1.gl.drawLog ++ [(rmId, objId)]
    unfold renderBufferDirect
    dsimp only
    show (if spriteBit material = 1 then copySpriteUniforms env1 rmId material item.object
          else env1).gl.drawLog ++ [(rmId, objId)] = env1.gl.drawLog ++ [(rmId, objId)]
    rw [env2_gl]

theorem ensureMaterial_gl (env : Env) (item : RenderItem) (i s a : ℕ) :
    (ensureMaterial env item i s a).1.gl = env.gl := by
  unfold ensureMaterial
  split
  · rfl
  · split <;> rfl

theorem ensureMaterial_cam (env : Env) (item : RenderItem) (i s a : ℕ) :
    (ensureMaterial env item i s a).1.cam = env.cam := by
  unfold ensureMaterial
  split
  · rfl
  · split <;> rfl

theorem ensureMaterial_override (env : Env) (item : RenderItem) (i s a mid : ℕ)
    (ho : item.object.userDataPickingMaterial = some mid) :
    ensureMaterial env item i s a = (env, mid) := by
  unfold ensureMaterial
  rw [ho]

theorem ensureMaterial_hit (env : Env) (item : RenderItem) (i s a mid : ℕ)
    (ho : item.object.userDataPickingMaterial = none)
    (hl : List.lookup i env.picker.materialCache = some mid) :
    ensureMaterial env item i s a = (env, mid) := by
  unfold ensureMaterial
  rw [ho, hl]

theorem ensureMaterial_miss (env : Env) (item : RenderItem) (i s a : ℕ)
    (ho : item.object.userDataPickingMaterial = none)
    (hl : List.lookup i env.picker.materialCache = none) :
    ensureMaterial env item i s a =
      ({ env with
          matStore := env.matStore ++ [newPickingMaterial s a],
          picker := { env.picker with
            materialCache := (i, env.matStore.length) :: env.picker.materialCache } },
        env.matStore.length) := by
  unfold ensureMaterial
  rw [ho, hl]

theorem selected_eq (env : Env) (item : RenderItem) :
    (ensureMaterial env item (itemFeatureIndex env item) (spriteBit (itemMaterial env item))
        (sizeAttenuationBit (itemMaterial env item))).2 = selectedMaterialId env item ∧
    (((ensureMaterial env item (itemFeatureIndex env item) (spriteBit (itemMaterial env item))
          (sizeAttenuationBit (itemMaterial env item))).1.matStore.getD
        (ensureMaterial env item (itemFeatureIndex env item) (spriteBit (itemMaterial env item))
          (sizeAttenuationBit (itemMaterial env item))).2 defaultMaterial).uniforms).objectId.isSome
      = selectedHasObjectId env item := by
  unfold selectedMaterialId selectedHasObjectId
  rcases ho : item.object.userDataPickingMaterial with _ | mid
  · rcases hl : List.lookup (itemFeatureIndex env item) env.picker.materialCache with _ | mid
    · rw [ensureMaterial_miss env item _ _ _ ho hl]
      refine ⟨rfl, ?_⟩
      dsimp only
      rw [getD_concat_length]
    · rw [ensureMaterial_hit env item _ _ _ mid ho hl]
      exact ⟨rfl, rfl⟩
  · rw [ensureMaterial_override env item _ _ _ mid ho]
    exact ⟨rfl, rfl⟩

theorem processItem_eligible (env : Env) (item : RenderItem) (h : ¬ skipCheck env item) :
    ((processItem env item).2 = none ↔ selectedHasObjectId env item = true) ∧
    (selectedHasObjectId env item = true →
      (processItem env item).1.gl.drawLog
        = env.gl.drawLog ++ [(selectedMaterialId env item, itemObjId env item)]) ∧
    (selectedHasObjectId env item = false →
      (processItem env item).2 = some objectIdUniformError ∧
      (processItem env item).1.gl.drawLog = env.gl.drawLog) := by
  unfold processItem
  rw [if_neg h]
  unfold processEligible
  dsimp only
  obtain ⟨hsel, huni⟩ := selected_eq env item
  obtain ⟨hiff, hdl, herr⟩ := processDraw_spec
    (ensureMaterial env item (itemFeatureIndex env item) (spriteBit (itemMaterial env item))
      (sizeAttenuationBit (itemMaterial env item))).1 item (itemMaterial env item)
    (ensureMaterial env item (itemFeatureIndex env item) (spriteBit (itemMaterial env item))
      (sizeAttenuationBit (itemMaterial env item))).2 (itemObjId env item)
  rw [huni] at hiff hdl herr
  refine ⟨hiff, fun hc => ?_, fun hc => ⟨(herr hc).1, (herr hc).2.trans ?_⟩⟩
  · rw [hdl hc, hsel]
    have hgl : (ensureMaterial env item (itemFeatureIndex env item)
        (spriteBit (itemMaterial env item)) (sizeAttenuationBit (itemMaterial env item))).1.gl
        = env.gl := ensureMaterial_gl env item _ _ _
    rw [hgl]
  · have hgl : (ensureMaterial env item (itemFeatureIndex env item)
        (spriteBit (itemMaterial env item)) (sizeAttenuationBit (itemMaterial env item))).1.gl
        = env.gl := ensureMaterial_gl env item _ _ _
    rw [hgl]

theorem setObjectIdUniform_picker (env : Env) (rmId : ℕ) (v : JSNum × JSNum × JSNum × JSNum) :
    (setObjectIdUniform env rmId v).picker = env.picker := rfl

theorem processDraw_picker (env1 : Env) (item : RenderItem) (material : Material) (rmId : ℕ)
    (objId : ℤ) :
    (processDraw env1 item material rmId objId).1.picker = env1.picker := by
  unfold processDraw
  dsimp only
  split
  · exact env2_picker env1 item material rmId
  · show (setObjectIdUniform (if spriteBit material = 1 then
        copySpriteUniforms env1 rmId material item.object else env1) rmId
        (encodeObjectIdValue objId)).picker = env1.picker
    exact (setObjectIdUniform_picker _ _ _).trans (env2_picker env1 item material rmId)

theorem env2_matStore_length (env1 : Env) (item : RenderItem) (material : Material) (rmId : ℕ) :
    (if spriteBit material = 1 then copySpriteUniforms env1 rmId material item.object
     else env1).matStore.length = env1.matStore.length := by
  split
  · unfold copySpriteUniforms updateMat
    dsimp only
    exact List.length_set _ _ _
  · rfl

theorem setObjectIdUniform_matStore_length (env : Env) (rmId : ℕ)
    (v : JSNum × JSNum × JSNum × JSNum) :
    (setObjectIdUniform env rmId v).matStore.length = env.matStore.length := by
  unfold setObjectIdUniform updateMat
  dsimp only
  exact List.length_set _ _ _

theorem processDraw_matStore_length (env1 : Env) (item : RenderItem) (material : Material)
    (rmId : ℕ) (objId : ℤ) :
    (processDraw env1 item material rmId objId).1.matStore.length = env1.matStore.length := by
  unfold processDraw
  dsimp only
  split
  · exact env2_matStore_length env1 item material rmId
  · show (setObjectIdUniform (if spriteBit material = 1 then
        copySpriteUniforms env1 rmId material item.object else env1) rmId
        (encodeObjectIdValue objId)).matStore.length = env1.matStore.length
    exact (setObjectIdUniform_matStore_length _ _ _).trans
      (env2_matStore_length env1 item material rmId)

theorem processItem_cacheEffect (env : Env) (item : RenderItem) (h : ¬ skipCheck env item) :
    (∀ mid, item.object.userDataPickingMaterial = some mid →
      (processItem env item).1.picker.materialCache = env.picker.materialCache ∧
      selectedMaterialId env item = mid ∧
      (processItem env item).1.matStore.length = env.matStore.length) ∧
    (item.object.userDataPickingMaterial = none →
      (∀ mid, List.lookup (itemFeatureIndex env item) env.picker.materialCache = some mid →
        (processItem env item).1.picker.materialCache = env.picker.materialCache ∧
        selectedMaterialId env item = mid ∧
        (processItem env item).1.matStore.length = env.matStore.length) ∧
      (List.lookup (itemFeatureIndex env item) env.picker.materialCache = none →
        (processItem env item).1.picker.materialCache
          = (itemFeatureIndex env item, env.matStore.length) :: env.picker.materialCache ∧
        selectedMaterialId env item = env.matStore.length ∧
        (processItem env item).1.matStore.length = env.matStore.length + 1)) := by
  unfold processItem
  rw [if_neg h]
  unfold processEligible
  dsimp only
  constructor
  · intro mid ho
    rw [ensureMaterial_override env item _ _ _ mid ho]
    refine ⟨?_, ?_, ?_⟩
    · rw [processDraw_picker]
    · unfold selectedMaterialId
      rw [ho]
    · rw [processDraw_matStore_length]
  · intro ho
    constructor
    · intro mid hl
      rw [ensureMaterial_hit env item _ _ _ mid ho hl]
      refine ⟨?_, ?_, ?_⟩
      · rw [processDraw_picker]
      · unfold selectedMaterialId
        rw [ho, hl]
      · rw [processDraw_matStore_length]
    · intro hl
      rw [ensureMaterial_miss env item _ _ _ ho hl]
      refine ⟨?_, ?_, ?_⟩
      · rw [processDraw_picker]
      · unfold selectedMaterialId
        rw [ho, hl]
      · rw [processDraw_matStore_length]
        dsimp only
        rw [List.length_append]
        rfl

theorem lookup_cons_self (i len : ℕ) (cache : List (ℕ × ℕ)) :
    List.lookup i ((i, len) :: cache) = some len := by
  simp [List.lookup]

theorem selectedMaterialId_stable (env : Env) (item1 item2 : RenderItem)
    (h1 : ¬ skipCheck env item1)
    (ho1 : item1.object.userDataPickingMaterial = none)
    (ho2 : item2.object.userDataPickingMaterial = none)
    (hidx : itemFeatureIndex (processItem env item1).1 item2 = itemFeatureIndex env item1) :
    selectedMaterialId (processItem env item1).1 item2 = selectedMaterialId env item1 := by
  obtain ⟨_, hnone⟩ := processItem_cacheEffect env item1 h1
  rcases hl : List.lookup (itemFeatureIndex env item1) env.picker.materialCache with _ | mid
  · obtain ⟨hc, hs, _⟩ := (hnone ho1).2 hl
    rw [hs]
    unfold selectedMaterialId
    rw [ho2, hidx, hc, lookup_cons_self]
  · obtain ⟨hc, hs, _⟩ := (hnone ho1).1 mid hl
    rw [hs]
    unfold selectedMaterialId
    rw [ho2, hidx, hc, hl]

/-- The cache well-formedness invariant: every cached arena id points at a
material carrying the `objectId` uniform. -/
def cacheWF (env : Env) : Prop :=
  ∀ p ∈ env.picker.materialCache,
    (((env.matStore.getD p.2 defaultMaterial).uniforms).objectId).isSome = true

theorem getD_uniform_mono (l : List Material) (i j : ℕ) (f : Material → Material)
    (hf : ∀ m, (((f m).uniforms).objectId).isSome = true ∨
      ((f m).uniforms).objectId = (m.uniforms).objectId)
    (h : (((l.getD j defaultMaterial).uniforms).objectId).isSome = true) :
    ((((l.set i (f (l.getD i defaultMaterial))).getD j defaultMaterial).uniforms).objectId).isSome
      = true := by
  rcases eq_or_ne i j with rfl | hne
  · rcases Nat.lt_or_ge i l.length with hlt | hge
    · rw [getD_set_self _ _ _ hlt]
      rcases hf (l.getD i defaultMaterial) with h1 | h1
      · exact h1
      · rw [h1]
        exact h
    · rw [set_of_ge _ _ _ hge]
      exact h
  · rw [getD_set_ne _ _ _ _ hne]
    exact h

theorem env2_uniform_mono (env1 : Env) (item : RenderItem) (material : Material) (rmId j : ℕ)
    (h : (((env1.matStore.getD j defaultMaterial).uniforms).objectId).isSome = true) :
    ((((if spriteBit material = 1 then copySpriteUniforms env1 rmId material item.object
        else env1).matStore.getD j defaultMaterial).uniforms).objectId).isSome = true := by
  split
  · unfold copySpriteUniforms updateMat
    dsimp only
    exact getD_uniform_mono env1.matStore rmId j
      (fun m => { m with uniforms := { m.uniforms with
        rotation := some material.rotation, center := some item.object.center } })
      (fun m => Or.inr rfl) h
  · exact h

theorem processDraw_uniform_mono (env1 : Env) (item : RenderItem) (material : Material)
    (rmId : ℕ) (objId : ℤ) (j : ℕ)
    (h : (((env1.matStore.getD j defaultMaterial).uniforms).objectId).isSome = true) :
    ((((processDraw env1 item material rmId objId).1.matStore.getD j
        defaultMaterial).uniforms).objectId).isSome = true := by
  unfold processDraw
  dsimp only
  split
  · exact env2_uniform_mono env1 item material rmId j h
  · show ((((setObjectIdUniform (if spriteBit material = 1 then
        copySpriteUniforms env1 rmId material item.object else env1) rmId
        (encodeObjectIdValue objId)).matStore.getD j defaultMaterial).uniforms).objectId).isSome
        = true
    unfold setObjectIdUniform updateMat
    dsimp only
    exact getD_uniform_mono _ rmId j
      (fun m => { m with uniforms := { m.uniforms with
        objectId := some (encodeObjectIdValue objId) } })
      (fun m => Or.inl rfl)
      (env2_uniform_mono env1 item material rmId j h)

theorem cacheWF_processItem (env : Env) (item : RenderItem) (h : cacheWF env) :
    cacheWF (processItem env item).1 := by
  by_cases hsk : skipCheck env item
  · rw [processItem_skip env item hsk]
    exact h
  · unfold processItem
    rw [if_neg hsk]
    unfold processEligible
    dsimp only
    rcases ho : item.object.userDataPickingMaterial with _ | mid
    · rcases hl : List.lookup (itemFeatureIndex env item) env.picker.materialCache with _ | mid
      · rw [ensureMaterial_miss env item _ _ _ ho hl]
        intro p hp
        rw [processDraw_picker] at hp
        refine processDraw_uniform_mono _ item _ _ _ _ ?_
        dsimp only at hp ⊢
        rcases List.mem_cons.mp hp with rfl | hmem
        · rw [getD_concat_length]
          rfl
        · have hwp := h p hmem
          rcases Nat.lt_or_ge p.2 env.matStore.length with hlt | hge
          · rw [getD_append_left _ _ _ hlt]
            exact hwp
          · rw [getD_of_ge _ _ hge] at hwp
            exact absurd hwp (by decide)
      · rw [ensureMaterial_hit env item _ _ _ mid ho hl]
        intro p hp
        rw [processDraw_picker] at hp
        exact processDraw_uniform_mono _ item _ _ _ _ (h p hp)
    · rw [ensureMaterial_override env item _ _ _ mid ho]
      intro p hp
      rw [processDraw_picker] at hp
      exact processDraw_uniform_mono _ item _ _ _ _ (h p hp)

/-! ### The debug flag does not change the decoded identifier -/

/-- Replace only the `debug` flag of a Picker world. -/
def setDebug (env : Env) (d : Bool) : Env :=
  { env with picker := { env.picker with debug := d } }

theorem ensureMaterial_setDebug (env : Env) (item : RenderItem) (i s a : ℕ) (d : Bool) :
    ensureMaterial (setDebug env d) item i s a
      = (setDebug (ensureMaterial env item i s a).1 d, (ensureMaterial env item i s a).2) := by
  unfold ensureMaterial
  rcases ho : item.object.userDataPickingMaterial with _ | mid
  case none =>
    simp only [ho]
    rcases hl : List.lookup i env.picker.materialCache with _ | mid
    case none =>
      have hl' : List.lookup i (setDebug env d).picker.materialCache = none := hl
      simp only [hl, hl'] <;> rfl
    case some =>
      have hl' : List.lookup i (setDebug env d).picker.materialCache = some mid := hl
      simp only [hl, hl'] <;> rfl
  case some =>
    simp only [ho] <;> rfl

theorem processDraw_setDebug (env1 : Env) (item : RenderItem) (material : Material)
    (rmId : ℕ) (objId : ℤ) (d : Bool) :
    processDraw (setDebug env1 d) item material rmId objId
      = (setDebug (processDraw env1 item material rmId objId).1 d,
         (processDraw env1 item material rmId objId).2) := by
  unfold processDraw
  dsimp only
  by_cases hs : spriteBit material = 1
  · rw [if_pos hs, if_pos hs]
    have hcs : copySpriteUniforms (setDebug env1 d) rmId material item.object
        = setDebug (copySpriteUniforms env1 rmId material item.object) d := rfl
    rw [hcs]
    rcases hobj : (((copySpriteUniforms env1 rmId material item.object).matStore.getD rmId
        defaultMaterial).uniforms).objectId with _ | v
    · have hobj' : (((setDebug (copySpriteUniforms env1 rmId material item.object)
          d).matStore.getD rmId defaultMaterial).uniforms).objectId = none := hobj
      simp only [hobj, hobj'] <;> rfl
    · have hobj' : (((setDebug (copySpriteUniforms env1 rmId material item.object)
          d).matStore.getD rmId defaultMaterial).uniforms).objectId = some v := hobj
      simp only [hobj, hobj'] <;> rfl
  · rw [if_neg hs, if_neg hs]
    rcases hobj : ((env1.matStore.getD rmId defaultMaterial).uniforms).objectId with _ | v
    · have hobj' : (((setDebug env1 d).matStore.getD rmId
          defaultMaterial).uniforms).objectId = none := hobj
      simp only [hobj, hobj'] <;> rfl
    · have hobj' : (((setDebug env1 d).matStore.getD rmId
          defaultMaterial).uniforms).objectId = some v := hobj
      simp only [hobj, hobj'] <;> rfl

theorem processItem_setDebug (env : Env) (item : RenderItem) (d : Bool) :
    processItem (setDebug env d) item
      = (setDebug (processItem env item).1 d, (processItem env item).2) := by
  by_cases hsk : skipCheck env item
  · have hsk' : skipCheck (setDebug env d) item := hsk
    rw [processItem_skip env item hsk, processItem_skip (setDebug env d) item hsk']
  · have hsk' : ¬ skipCheck (setDebug env d) item := hsk
    unfold processItem
    rw [if_neg hsk, if_neg hsk']
    show processEligible (setDebug env d) item (itemObjId (setDebug env d) item) = _
    have hobj : itemObjId (setDebug env d) item = itemObjId env item := rfl
    rw [hobj]
    unfold processEligible
    dsimp only
    have hmat : itemMaterial (setDebug env d) item = itemMaterial env item := rfl
    have hidx : itemFeatureIndex (setDebug env d) item = itemFeatureIndex env item := rfl
    rw [hmat, hidx, ensureMaterial_setDebug]
    exact processDraw_setDebug _ item _ _ _ d

theorem runItems_setDebug (items : List RenderItem) (env : Env) (d : Bool) :
    runItems (setDebug env d) items
      = (setDebug (runItems env items).1 d, (runItems env items).2) := by
  induction items generalizing env with
  | nil => rfl
  | cons item rest ih =>
    show runItems (setDebug env d) (item :: rest) = _
    unfold runItems
    rw [processItem_setDebug]
    rcases hpi : processItem env item with ⟨env1, err⟩
    cases err with
    | none =>
      dsimp only
      exact ih env1
    | some e => rfl

theorem handleAfterRender_setDebug (env : Env) (d : Bool) :
    handleAfterRender (setDebug env d)
      = (setDebug (handleAfterRender env).1 d, (handleAfterRender env).2) := by
  unfold handleAfterRender
  exact runItems_setDebug _ env d

theorem setDebug_gl (env : Env) (d : Bool) : (setDebug env d).gl = env.gl := rfl

theorem setDebug_pixelBuffer (env : Env) (d : Bool) :
    (setDebug env d).picker.pixelBuffer = env.picker.pixelBuffer := rfl

theorem setDebug_debugFlag (env : Env) (d : Bool) : (setDebug env d).picker.debug = d := rfl

theorem pickPrepare_setDebug (env : Env) (xi yi : ℚ) (cb : Object → Bool) (d : Bool) :
    pickPrepare (setDebug env d) xi yi cb = setDebug (pickPrepare env xi yi cb) d := rfl

theorem readbackPixels_setDebug (env : Env) (d : Bool) :
    readbackPixels (setDebug env d) = setDebug (readbackPixels env) d := rfl

theorem pickRestore_setDebug (env : Env) (t : RT) (a : ℚ) (d : Bool) :
    pickRestore (setDebug env d) t a = setDebug (pickRestore env t a) d := rfl

theorem pick_debug_value (env : Env) (x y : ℚ) (cb : Object → Bool) (v : ℤ)
    (h : (pick (setDebug env true) x y cb).2 = Except.ok v) :
    (pick (setDebug env false) x y cb).2 = Except.ok v := by
  unfold pick at h ⊢
  dsimp only at h ⊢
  rw [setDebug_gl, pickPrepare_setDebug, handleAfterRender_setDebug] at h
  rw [setDebug_gl, pickPrepare_setDebug, handleAfterRender_setDebug]
  rcases hsnd : (handleAfterRender (pickPrepare env
      (max 0 (x * env.gl.pixelRatio - ((PIXEL_WIDTH / 2 : ℕ) : ℚ)))
      (max 0 (y * env.gl.pixelRatio - ((PIXEL_WIDTH / 2 : ℕ) : ℚ))) cb)).2 with _ | e
  case some =>
    rw [hsnd] at h
    dsimp only at h
    exact absurd h (by simp)
  case none =>
    rw [hsnd] at h
    dsimp only at h ⊢
    rw [readbackPixels_setDebug, pickRestore_setDebug, setDebug_pixelBuffer,
      setDebug_debugFlag] at h
    rw [readbackPixels_setDebug, pickRestore_setDebug, setDebug_pixelBuffer,
      setDebug_debugFlag]
    rw [if_pos rfl] at h
    rw [if_neg (by simp)]
    rcases hdr : pickDebugRender (setDebug (pickRestore (readbackPixels
        (handleAfterRender (pickPrepare env
          (max 0 (x * env.gl.pixelRatio - ((PIXEL_WIDTH / 2 : ℕ) : ℚ)))
          (max 0 (y * env.gl.pixelRatio - ((PIXEL_WIDTH / 2 : ℕ) : ℚ))) cb)).1)
        env.gl.renderTarget env.gl.clearAlpha) true) with ⟨e3, err3⟩
    rw [hdr] at h
    cases err3 with
    | some e => exact absurd h (by simp)
    | none => exact h

end Picker
namespace Picker

/-! ### Concrete worlds used as witnesses and counterexamples -/

/-- Empty draw-item lists: a scene with zero pickable objects. -/
def emptyRenderList : RenderList :=
  { opaqueItems := [], transmissive := [], transparent := [] }

/-- A canvas-bound renderer with unit pixel ratio and a saved clear state. -/
def baseGL : GLState :=
  { pixelRatio := 1, domWidth := 100, domHeight := 100, renderTarget := RT.canvas,
    clearColorHex := 0x123456, clearAlpha := 1/2, buffers := fun _ _ => ⟨0, 0, 0, 0⟩,
    renderList := emptyRenderList, drawLog := [] }

/-- A freshly constructed Picker's own state (Picker.ts lines 57-76). -/
def basePicker : PickerState :=
  { shouldPickObjectCB := AlwaysPickObject, materialCache := [], pixelBuffer := fun _ => 0,
    currClearColor := 0, debug := false, isDebugPass := false,
    pickingTargetDisposed := false, disposedMaterials := [] }

/-- A world whose scene holds zero pickable objects. -/
def sceneEnvEmpty : Env :=
  { gl := baseGL, cam := { viewOffset := none }, picker := basePicker,
    matStore := [defaultMaterial] }

/-- An ordinary object covering every pixel of any window. -/
def fullCoverObject : Object :=
  { id := 42, userDataPicking := none, userDataPickingMaterial := none,
    isInstancedMesh := false, center := (0, 0), coverage := fun _ => true }

/-- A draw item for `fullCoverObject` with geometry, using arena material 0. -/
def fullCoverItem : RenderItem :=
  { object := fullCoverObject, geometry := some 0, material := 0 }

/-- The same item flagged `userData.picking = false`. -/
def optOutItem : RenderItem :=
  { fullCoverItem with object := { fullCoverObject with userDataPicking := some false } }

/-- The same item carrying a custom `userData.pickingMaterial` override that has
no `objectId` uniform (arena id 0 is `defaultMaterial`). -/
def badOverrideItem : RenderItem :=
  { fullCoverItem with
    object := { fullCoverObject with userDataPickingMaterial := some 0 } }

/-- `sceneEnvEmpty` with the given opaque draw items. -/
def sceneEnvWith (items : List RenderItem) : Env :=
  { sceneEnvEmpty with
    gl := { baseGL with renderList :=
      { opaqueItems := items, transmissive := [], transparent := [] } } }

/-- The world whose only item carries the uniform-less override material. -/
def badOverrideEnv : Env := sceneEnvWith [badOverrideItem]

/-! ### The sampling-window formulas of the spec, section 4.1 -/

/-- The spec's step 2: the clamped device-pixel window origin
`max(0, coord * pixelRatio - floor(targetSize / 2))`. -/
def specWindowOrigin (coord pixelRatio : ℚ) : ℚ :=
  max 0 (coord * pixelRatio - ((PIXEL_WIDTH / 2 : ℕ) : ℚ))

/-- The spec's step 9: the flat byte offset of the decoded pixel,
`(min(h, yi) * targetSize + min(h, xi)) * 4`. -/
def bufferByteOffset (x y pr : ℚ) : ℚ :=
  (min ((PIXEL_WIDTH / 2 : ℕ) : ℚ) (specWindowOrigin y pr) * ((PIXEL_WIDTH : ℕ) : ℚ) +
    min ((PIXEL_WIDTH / 2 : ℕ) : ℚ) (specWindowOrigin x pr)) * 4

theorem decodeVal_eq_bufferByteOffset (buf : ℕ → ℕ) (x y pr : ℚ) :
    decodeVal buf (specWindowOrigin x pr) (specWindowOrigin y pr)
      = jsShl (readByte buf pixelBufferLength (bufferByteOffset x y pr + 0)) 24 +
        jsShl (readByte buf pixelBufferLength (bufferByteOffset x y pr + 1)) 16 +
        jsShl (readByte buf pixelBufferLength (bufferByteOffset x y pr + 2)) 8 +
        (readByte buf pixelBufferLength (bufferByteOffset x y pr + 3) : ℤ) := rfl

set_option maxRecDepth 8192 in
/-- On a successful pick, the returned identifier is the decode of the final
readback buffer at the window position given by the spec's clamped origins. -/
theorem pick_ok_value (env : Env) (x y : ℚ) (cb : Object → Bool) (envF : Env) (v : ℤ)
    (h : pick env x y cb = (envF, Except.ok v)) :
    v = decodeVal envF.picker.pixelBuffer
          (specWindowOrigin x env.gl.pixelRatio) (specWindowOrigin y env.gl.pixelRatio) := by
  unfold pick at h
  dsimp only at h
  split at h
  next env1 e heq => exact absurd h (by simp)
  next env1 heq =>
    split at h
    · split at h
      next env3 e heq2 => exact absurd h (by simp)
      next env3 heq2 =>
        injection h with hE hR
        have hv := Except.ok.inj hR
        obtain ⟨_, _, _, _, hpix⟩ := pickDebugRender_ok _ _ heq2
        rw [← hE, ← hv, hpix]
        rfl
    · injection h with hE hR
      have hv := Except.ok.inj hR
      rw [← hE, ← hv]
      rfl

/-- The cache key is injective on the three feature bits. -/
theorem featureIndex_inj (u s a u2 s2 a2 : ℕ)
    (hu : u ≤ 1) (hs : s ≤ 1) (ha : a ≤ 1) (hu2 : u2 ≤ 1) (hs2 : s2 ≤ 1) (ha2 : a2 ≤ 1) :
    (u, s, a) ≠ (u2, s2, a2) → featureIndex u s a ≠ featureIndex u2 s2 a2 := by
  interval_cases u <;> interval_cases s <;> interval_cases a <;>
    interval_cases u2 <;> interval_cases s2 <;> interval_cases a2 <;> decide

/-! ### The claims -/

theorem den_zero_mul (r : ℚ) (h : r = 1) : ((0 : ℚ) * r).den = 1 := by
  rw [h]
  norm_num

/-- Claim C2 (corrected).  With zero pickable objects and integral device
coordinates, `pick` returns the decode of the all-255 background clear colour —
but because the decode's shifts are JavaScript signed 32-bit operations, that
sentinel is `-1`, not `4294967295` as the spec states. -/
theorem claim_C2 (env : Env) (x y : ℚ) (cb : Object → Bool)
    (hempty : env.gl.renderList = emptyRenderList)
    (hx : (x * env.gl.pixelRatio).den = 1) (hy : (y * env.gl.pixelRatio).den = 1) :
    (pick env x y cb).2 = Except.ok (decodePixelBytes 255 255 255 255) ∧
    decodePixelBytes 255 255 255 255 = -1 := by
  have hdec : decodePixelBytes 255 255 255 255 = -1 := by decide
  refine ⟨?_, hdec⟩
  rw [hdec]
  apply pick_sentinel env x y cb hx hy
  intro it hit
  rw [hempty] at hit
  simp [emptyRenderList] at hit

theorem claim_C2_witness :
    sceneEnvEmpty.gl.renderList = emptyRenderList ∧
    ((0 : ℚ) * sceneEnvEmpty.gl.pixelRatio).den = 1 ∧
    ((pick sceneEnvEmpty 0 0 AlwaysPickObject).2
        = Except.ok (decodePixelBytes 255 255 255 255) ∧
      decodePixelBytes 255 255 255 255 = -1) :=
  ⟨rfl, den_zero_mul _ rfl,
   claim_C2 sceneEnvEmpty 0 0 AlwaysPickObject rfl (den_zero_mul _ rfl) (den_zero_mul _ rfl)⟩

/-- Counterexample to the literal claim C2: on the empty scene the pick result
is `-1`, which is not the claimed `0xFFFFFFFF = 4294967295`. -/
theorem claim_C2_counterexample :
    (pick sceneEnvEmpty 0 0 AlwaysPickObject).2 = Except.ok (-1) ∧
    ((-1 : ℤ) ≠ 4294967295) := by
  refine ⟨?_, by decide⟩
  apply pick_sentinel sceneEnvEmpty 0 0 AlwaysPickObject (den_zero_mul _ rfl)
    (den_zero_mul _ rfl)
  intro it hit
  simp [sceneEnvEmpty, baseGL, emptyRenderList] at hit

/-- Claim C3 (corrected).  On every successful return, `pick` restores the
saved render target, clear colour and clear alpha and removes the camera view
offset.  The claim's "every exit path" is false: on the throwing path nothing
is restored (see the counterexample). -/
theorem claim_C3 (env : Env) (x y : ℚ) (cb : Object → Bool) (envF : Env) (v : ℤ)
    (h : pick env x y cb = (envF, Except.ok v)) :
    envF.gl.renderTarget = env.gl.renderTarget ∧
    envF.gl.clearColorHex = env.gl.clearColorHex ∧
    envF.gl.clearAlpha = env.gl.clearAlpha ∧
    envF.cam.viewOffset = none :=
  pick_ok_restores env x y cb envF v h

theorem claim_C3_witness :
    (pick sceneEnvEmpty 0 0 AlwaysPickObject).1.gl.renderTarget
        = sceneEnvEmpty.gl.renderTarget ∧
    (pick sceneEnvEmpty 0 0 AlwaysPickObject).1.gl.clearColorHex
        = sceneEnvEmpty.gl.clearColorHex ∧
    (pick sceneEnvEmpty 0 0 AlwaysPickObject).1.gl.clearAlpha
        = sceneEnvEmpty.gl.clearAlpha ∧
    (pick sceneEnvEmpty 0 0 AlwaysPickObject).1.cam.viewOffset = none := by
  apply claim_C3 sceneEnvEmpty 0 0 AlwaysPickObject _ (-1)
  have h2 : (pick sceneEnvEmpty 0 0 AlwaysPickObject).2 = Except.ok (-1) := by
    apply pick_sentinel sceneEnvEmpty 0 0 AlwaysPickObject (den_zero_mul _ rfl)
      (den_zero_mul _ rfl)
    intro it hit
    simp [sceneEnvEmpty, baseGL, emptyRenderList] at hit
  rw [← h2]

/-- Counterexample to the literal claim C3: when the selected picking material
lacks the objectId uniform, the render throws, and `pick` returns with the
picking target still bound and the view offset still set. -/
theorem claim_C3_counterexample :
    (pick badOverrideEnv 0 0 AlwaysPickObject).2 = Except.error objectIdUniformError ∧
    badOverrideEnv.gl.renderTarget = RT.canvas ∧
    (pick badOverrideEnv 0 0 AlwaysPickObject).1.gl.renderTarget = RT.pickingTarget ∧
    ((pick badOverrideEnv 0 0 AlwaysPickObject).1.cam.viewOffset).isSome = true := by
  refine ⟨?_, rfl, ?_, ?_⟩ <;> rfl

/-- Claim C4 (confirmed).  An item is skipped — processed with no error and no
draw call appended — exactly when it has no geometry, is flagged
`userData.picking === false`, or is rejected by the active predicate; and when
the only item under the sample point is flagged pick-opt-out, `pick` returns
the background sentinel. -/
theorem claim_C4 :
    (∀ (env : Env) (item : RenderItem),
      ((processItem env item).2 = none ∧
        (processItem env item).1.gl.drawLog = env.gl.drawLog) ↔ skipCheck env item) ∧
    (∀ (env : Env) (x y : ℚ) (cb : Object → Bool) (it : RenderItem),
      env.gl.renderList = { opaqueItems := [it], transmissive := [], transparent := [] } →
      it.object.userDataPicking = some false →
      (x * env.gl.pixelRatio).den = 1 → (y * env.gl.pixelRatio).den = 1 →
      (pick env x y cb).2 = Except.ok (-1)) := by
  constructor
  · intro env item
    constructor
    · intro hpair
      obtain ⟨h2, hdl⟩ := hpair
      by_contra hns
      obtain ⟨hiff, hdlk, herr⟩ := processItem_eligible env item hns
      rcases hbool : selectedHasObjectId env item with _ | _
      · obtain ⟨he, _⟩ := herr hbool
        rw [h2] at he
        simp at he
      · have hd := hdlk hbool
        rw [hdl] at hd
        simp at hd
    · intro hsk
      rw [processItem_skip env item hsk]
      exact ⟨rfl, rfl⟩
  · intro env x y cb it hlist hopt hx hy
    apply pick_sentinel env x y cb hx hy
    intro it2 hit
    rw [hlist] at hit
    simp at hit
    rw [hit]
    right; left
    exact hopt

theorem claim_C4_witness :
    (((processItem (sceneEnvWith [optOutItem]) optOutItem).2 = none ∧
        (processItem (sceneEnvWith [optOutItem]) optOutItem).1.gl.drawLog
          = (sceneEnvWith [optOutItem]).gl.drawLog) ↔
      skipCheck (sceneEnvWith [optOutItem]) optOutItem) ∧
    (pick (sceneEnvWith [optOutItem]) 0 0 AlwaysPickObject).2 = Except.ok (-1) :=
  ⟨claim_C4.1 (sceneEnvWith [optOutItem]) optOutItem,
   claim_C4.2 (sceneEnvWith [optOutItem]) 0 0 AlwaysPickObject optOutItem rfl rfl
     (den_zero_mul _ rfl) (den_zero_mul _ rfl)⟩

/-- Claim C5 (confirmed).  The encode material is chosen in priority order:
the item's override if present (cache untouched), else the cache entry for the
feature key (cache untouched on a hit), else a fresh material is created and
cached under the key; the drawn entry records the selected material; a later
item with the same key reuses the identical arena id; and the cache key is
injective on the three feature bits. -/
theorem claim_C5 :
    (∀ (env : Env) (item : RenderItem) (mid : ℕ), ¬ skipCheck env item →
      item.object.userDataPickingMaterial = some mid →
      selectedMaterialId env item = mid ∧
      (processItem env item).1.picker.materialCache = env.picker.materialCache) ∧
    (∀ (env : Env) (item : RenderItem) (mid : ℕ), ¬ skipCheck env item →
      item.object.userDataPickingMaterial = none →
      List.lookup (itemFeatureIndex env item) env.picker.materialCache = some mid →
      selectedMaterialId env item = mid ∧
      (processItem env item).1.picker.materialCache = env.picker.materialCache) ∧
    (∀ (env : Env) (item : RenderItem), ¬ skipCheck env item →
      item.object.userDataPickingMaterial = none →
      List.lookup (itemFeatureIndex env item) env.picker.materialCache = none →
      selectedMaterialId env item = env.matStore.length ∧
      (processItem env item).1.picker.materialCache
        = (itemFeatureIndex env item, env.matStore.length) :: env.picker.materialCache ∧
      (processItem env item).1.matStore.length = env.matStore.length + 1) ∧
    (∀ (env : Env) (item : RenderItem), selectedHasObjectId env item = true →
      ¬ skipCheck env item →
      (processItem env item).1.gl.drawLog
        = env.gl.drawLog ++ [(selectedMaterialId env item, itemObjId env item)]) ∧
    (∀ (env : Env) (item1 item2 : RenderItem), ¬ skipCheck env item1 →
      item1.object.userDataPickingMaterial = none →
      item2.object.userDataPickingMaterial = none →
      itemFeatureIndex (processItem env item1).1 item2 = itemFeatureIndex env item1 →
      selectedMaterialId (processItem env item1).1 item2 = selectedMaterialId env item1) ∧
    (∀ u s a u2 s2 a2 : ℕ, u ≤ 1 → s ≤ 1 → a ≤ 1 → u2 ≤ 1 → s2 ≤ 1 → a2 ≤ 1 →
      (u, s, a) ≠ (u2, s2, a2) → featureIndex u s a ≠ featureIndex u2 s2 a2) := by
  refine ⟨?_, ?_, ?_, ?_, ?_, ?_⟩
  · intro env item mid hns ho
    obtain ⟨hov, _⟩ := processItem_cacheEffect env item hns
    obtain ⟨hc, hs, _⟩ := hov mid ho
    exact ⟨hs, hc⟩
  · intro env item mid hns ho hl
    obtain ⟨_, hnone⟩ := processItem_cacheEffect env item hns
    obtain ⟨hhit, _⟩ := hnone ho
    obtain ⟨hc, hs, _⟩ := hhit mid hl
    exact ⟨hs, hc⟩
  · intro env item hns ho hl
    obtain ⟨_, hnone⟩ := processItem_cacheEffect env item hns
    obtain ⟨hc, hs, hlen⟩ := (hnone ho).2 hl
    exact ⟨hs, hc, hlen⟩
  · intro env item hsel hns
    exact (processItem_eligible env item hns).2.1 hsel
  · intro env i1 i2 h1 ho1 ho2 hidx
    exact selectedMaterialId_stable env i1 i2 h1 ho1 ho2 hidx
  · intro u s a u2 s2 a2 hu hs ha hu2 hs2 ha2
    exact featureIndex_inj u s a u2 s2 a2 hu hs ha hu2 hs2 ha2

theorem claim_C5_witness :
    selectedMaterialId (sceneEnvWith [fullCoverItem]) fullCoverItem
      = (sceneEnvWith [fullCoverItem]).matStore.length ∧
    (processItem (sceneEnvWith [fullCoverItem]) fullCoverItem).1.picker.materialCache
      = (itemFeatureIndex (sceneEnvWith [fullCoverItem]) fullCoverItem,
          (sceneEnvWith [fullCoverItem]).matStore.length)
        :: (sceneEnvWith [fullCoverItem]).picker.materialCache ∧
    (processItem (sceneEnvWith [fullCoverItem]) fullCoverItem).1.matStore.length
      = (sceneEnvWith [fullCoverItem]).matStore.length + 1 :=
  claim_C5.2.2.1 (sceneEnvWith [fullCoverItem]) fullCoverItem (by decide) rfl rfl

/-- Claim C6 (confirmed).  For an eligible item the pick halts with the fatal
uniform error exactly when the selected material lacks the objectId uniform;
cache-path materials always carry the uniform, so with a well-formed cache and
no override the error branch is unreachable, and processing preserves cache
well-formedness. -/
theorem claim_C6 :
    (∀ (env : Env) (item : RenderItem), ¬ skipCheck env item →
      ((processItem env item).2 = some objectIdUniformError ↔
        selectedHasObjectId env item = false)) ∧
    (∀ s a : ℕ, (((newPickingMaterial s a).uniforms).objectId).isSome = true) ∧
    (∀ (env : Env) (item : RenderItem), cacheWF env → ¬ skipCheck env item →
      item.object.userDataPickingMaterial = none →
      (processItem env item).2 = none) ∧
    (∀ (env : Env) (item : RenderItem), cacheWF env → cacheWF (processItem env item).1) := by
  refine ⟨?_, fun s a => rfl, ?_, fun env item h => cacheWF_processItem env item h⟩
  · intro env item hns
    obtain ⟨hiff, _, herr⟩ := processItem_eligible env item hns
    constructor
    · intro he
      rcases hbool : selectedHasObjectId env item with _ | _
      · rfl
      · exfalso
        have hnone := hiff.mpr hbool
        rw [hnone] at he
        simp at he
    · intro hf
      exact (herr hf).1
  · intro env item hwf hns ho
    have hsel : selectedHasObjectId env item = true := by
      unfold selectedHasObjectId
      rw [ho]
      rcases hl : List.lookup (itemFeatureIndex env item) env.picker.materialCache with _ | mid
      · rfl
      · exact hwf (itemFeatureIndex env item, mid) (mem_of_lookup_eq_some hl)
    exact ((processItem_eligible env item hns).1).mpr hsel

theorem claim_C6_witness :
    ((processItem badOverrideEnv badOverrideItem).2 = some objectIdUniformError ↔
      selectedHasObjectId badOverrideEnv badOverrideItem = false) :=
  claim_C6.1 badOverrideEnv badOverrideItem (by decide)

/-- Claim C7 (confirmed).  With target size 9 the half-width is 4; the window
origin `max(0, coord * pixelRatio - 4)` is never negative; and every value a
successful pick returns is the decode of the final readback buffer at the
window-relative offset `(min(4, xi), min(4, yi))`, whose four bytes sit at the
flat offsets `(min(4, yi) * 9 + min(4, xi)) * 4 + 0 .. 3`. -/
theorem claim_C7 :
    PIXEL_WIDTH / 2 = 4 ∧
    (∀ c r : ℚ, 0 ≤ specWindowOrigin c r) ∧
    (∀ (env : Env) (x y : ℚ) (cb : Object → Bool) (envF : Env) (v : ℤ),
      pick env x y cb = (envF, Except.ok v) →
      v = decodeVal envF.picker.pixelBuffer (specWindowOrigin x env.gl.pixelRatio)
            (specWindowOrigin y env.gl.pixelRatio) ∧
      decodeVal envF.picker.pixelBuffer (specWindowOrigin x env.gl.pixelRatio)
          (specWindowOrigin y env.gl.pixelRatio)
        = jsShl (readByte envF.picker.pixelBuffer pixelBufferLength
              (bufferByteOffset x y env.gl.pixelRatio + 0)) 24 +
          jsShl (readByte envF.picker.pixelBuffer pixelBufferLength
              (bufferByteOffset x y env.gl.pixelRatio + 1)) 16 +
          jsShl (readByte envF.picker.pixelBuffer pixelBufferLength
              (bufferByteOffset x y env.gl.pixelRatio + 2)) 8 +
          (readByte envF.picker.pixelBuffer pixelBufferLength
              (bufferByteOffset x y env.gl.pixelRatio + 3) : ℤ)) :=
  ⟨rfl, fun c r => le_max_left 0 _,
   fun env x y cb envF v h =>
    ⟨pick_ok_value env x y cb envF v h,
     decodeVal_eq_bufferByteOffset envF.picker.pixelBuffer x y env.gl.pixelRatio⟩⟩

theorem claim_C7_witness :
    (-1 : ℤ) = decodeVal (pick sceneEnvEmpty 0 0 AlwaysPickObject).1.picker.pixelBuffer
        (specWindowOrigin 0 sceneEnvEmpty.gl.pixelRatio)
        (specWindowOrigin 0 sceneEnvEmpty.gl.pixelRatio) ∧
    decodeVal (pick sceneEnvEmpty 0 0 AlwaysPickObject).1.picker.pixelBuffer
        (specWindowOrigin 0 sceneEnvEmpty.gl.pixelRatio)
        (specWindowOrigin 0 sceneEnvEmpty.gl.pixelRatio)
      = jsShl (readByte (pick sceneEnvEmpty 0 0 AlwaysPickObject).1.picker.pixelBuffer
            pixelBufferLength (bufferByteOffset 0 0 sceneEnvEmpty.gl.pixelRatio + 0)) 24 +
        jsShl (readByte (pick sceneEnvEmpty 0 0 AlwaysPickObject).1.picker.pixelBuffer
            pixelBufferLength (bufferByteOffset 0 0 sceneEnvEmpty.gl.pixelRatio + 1)) 16 +
        jsShl (readByte (pick sceneEnvEmpty 0 0 AlwaysPickObject).1.picker.pixelBuffer
            pixelBufferLength (bufferByteOffset 0 0 sceneEnvEmpty.gl.pixelRatio + 2)) 8 +
        (readByte (pick sceneEnvEmpty 0 0 AlwaysPickObject).1.picker.pixelBuffer
            pixelBufferLength (bufferByteOffset 0 0 sceneEnvEmpty.gl.pixelRatio + 3) : ℤ) := by
  apply claim_C7.2.2 sceneEnvEmpty 0 0 AlwaysPickObject _ (-1)
  have h2 : (pick sceneEnvEmpty 0 0 AlwaysPickObject).2 = Except.ok (-1) := by
    apply pick_sentinel sceneEnvEmpty 0 0 AlwaysPickObject (den_zero_mul _ rfl)
      (den_zero_mul _ rfl)
    intro it hit
    simp [sceneEnvEmpty, baseGL, emptyRenderList] at hit
  rw [← h2]

/-- Claim C8 (confirmed).  For an identical world and coordinates, a pick that
succeeds with the debug flag on returns exactly the value of the pick with the
debug flag off: the debug overlay runs after the value is decoded and never
alters it. -/
theorem claim_C8 (env : Env) (x y : ℚ) (cb : Object → Bool) (v : ℤ)
    (h : (pick (setDebug env true) x y cb).2 = Except.ok v) :
    (pick (setDebug env false) x y cb).2 = Except.ok v :=
  pick_debug_value env x y cb v h

theorem claim_C8_witness :
    (pick (setDebug sceneEnvEmpty false) 0 0 AlwaysPickObject).2 = Except.ok (-1) := by
  apply claim_C8 sceneEnvEmpty 0 0 AlwaysPickObject (-1)
  apply pick_sentinel (setDebug sceneEnvEmpty true) 0 0 AlwaysPickObject
    (den_zero_mul _ rfl) (den_zero_mul _ rfl)
  intro it hit
  simp [setDebug, sceneEnvEmpty, baseGL, emptyRenderList] at hit

/-- Claim C9 (confirmed).  `dispose` empties the material cache, releases every
cached material and the offscreen target, and a second call changes nothing
(and in particular cannot throw, the model being a total function). -/
theorem claim_C9 (env : Env) :
    (dispose env).picker.materialCache = [] ∧
    (dispose env).picker.pickingTargetDisposed = true ∧
    (∀ p ∈ env.picker.materialCache, p.2 ∈ (dispose env).picker.disposedMaterials) ∧
    dispose (dispose env) = dispose env := by
  refine ⟨rfl, rfl, ?_, ?_⟩
  · intro p hp
    show p.2 ∈ env.picker.disposedMaterials ++ env.picker.materialCache.map Prod.snd
    exact List.mem_append_right _ (List.mem_map.mpr ⟨p, hp, rfl⟩)
  · unfold dispose
    dsimp only
    rw [List.map_nil, List.append_nil]

/-- A world with one cached picking material, used to exercise `dispose`. -/
def disposeDemoEnv : Env :=
  { sceneEnvEmpty with picker := { basePicker with materialCache := [(0, 1)] } }

theorem claim_C9_witness :
    (dispose disposeDemoEnv).picker.materialCache = [] ∧
    (dispose disposeDemoEnv).picker.pickingTargetDisposed = true ∧
    (1 : ℕ) ∈ (dispose disposeDemoEnv).picker.disposedMaterials ∧
    dispose (dispose disposeDemoEnv) = dispose disposeDemoEnv :=
  ⟨(claim_C9 disposeDemoEnv).1, (claim_C9 disposeDemoEnv).2.1,
   (claim_C9 disposeDemoEnv).2.2.1 (0, 1) (by decide),
   (claim_C9 disposeDemoEnv).2.2.2⟩

/-- Claim C10 (confirmed).  When both device coordinates are integral, every
one of the four byte indices of the decode is an integer, nonnegative and
below the 324-byte buffer length, so all four reads are in bounds; the
integrality precondition is needed, for a fractional device coordinate makes
the byte offset itself fractional. -/
theorem claim_C10 :
    (∀ x y pr : ℚ, (x * pr).den = 1 → (y * pr).den = 1 →
      ∀ k : ℕ, k ≤ 3 →
        (bufferByteOffset x y pr + (k : ℚ)).den = 1 ∧
        0 ≤ (bufferByteOffset x y pr + (k : ℚ)).num ∧
        (bufferByteOffset x y pr + (k : ℚ)).num < pixelBufferLength) ∧
    pixelBufferLength = 324 ∧
    (∃ x y pr : ℚ, (x * pr).den ≠ 1 ∧ (bufferByteOffset x y pr).den ≠ 1) := by
  refine ⟨?_, rfl, ⟨13/3, 0, 1, by norm_num, ?_⟩⟩
  · intro x y pr hx hy k hk
    obtain ⟨n, hn⟩ := exists_nat_of_den_one (x * pr) hx
    obtain ⟨m, hm⟩ := exists_nat_of_den_one (y * pr) hy
    unfold bufferByteOffset specWindowOrigin
    rw [hn, hm]
    rw [show min ((PIXEL_WIDTH / 2 : ℕ) : ℚ) (n : ℚ) = ((min (PIXEL_WIDTH / 2) n : ℕ) : ℚ) from
          (Nat.cast_min (PIXEL_WIDTH / 2) n).symm,
        show min ((PIXEL_WIDTH / 2 : ℕ) : ℚ) (m : ℚ) = ((min (PIXEL_WIDTH / 2) m : ℕ) : ℚ) from
          (Nat.cast_min (PIXEL_WIDTH / 2) m).symm]
    obtain ⟨a, ha4, ha⟩ : ∃ a, a ≤ 4 ∧ min (PIXEL_WIDTH / 2) n = a :=
      ⟨_, by unfold PIXEL_WIDTH; omega, rfl⟩
    obtain ⟨b, hb4, hb⟩ : ∃ b, b ≤ 4 ∧ min (PIXEL_WIDTH / 2) m = b :=
      ⟨_, by unfold PIXEL_WIDTH; omega, rfl⟩
    rw [ha, hb]
    have hcast : ((b : ℚ) * ((PIXEL_WIDTH : ℕ) : ℚ) + (a : ℚ)) * 4 + (k : ℚ)
        = (((b * PIXEL_WIDTH + a) * 4 + k : ℕ) : ℚ) := by push_cast; ring
    rw [hcast]
    have hlt : (b * PIXEL_WIDTH + a) * 4 + k < pixelBufferLength := by
      unfold pixelBufferLength PIXEL_WIDTH at *
      omega
    refine ⟨Rat.den_natCast _, ?_, ?_⟩
    · rw [Rat.num_natCast]
      exact Int.natCast_nonneg _
    · rw [Rat.num_natCast]
      exact_mod_cast hlt
  · have hbo : bufferByteOffset (13/3) 0 1 = 4/3 := by
      unfold bufferByteOffset specWindowOrigin PIXEL_WIDTH
      norm_num [max_def, min_def]
    rw [hbo]
    norm_num

theorem claim_C10_witness :
    (bufferByteOffset 2 3 1 + ((3 : ℕ) : ℚ)).den = 1 ∧
    0 ≤ (bufferByteOffset 2 3 1 + ((3 : ℕ) : ℚ)).num ∧
    (bufferByteOffset 2 3 1 + ((3 : ℕ) : ℚ)).num < pixelBufferLength :=
  claim_C10.1 2 3 1 (by norm_num) (by norm_num) 3 (by norm_num)

end Picker
